import Mathlib

/-!
# go-clean-boilerplate: queue endpoint resolver and user interactor

A shallow embedding of

* `internal/infrastructure/gateway/sqs/initializer.go` (`InitSQS`),
* `internal/usecase/interactor/user.go` (`UserInteractor.Create`, `Get`, `Update`, `Delete`,
  `ProcessMessage`),
* `internal/infrastructure/controller/subscriber/sample_subscriber/run.go` (`Run`),
* `internal/usecase/interactor/match.go` (`matchInteractor.Create`, `Update`, `Delete`),

followed by the theorems about them.

Conventions of the embedding.

* A Go function returning `(*T, error)` becomes a function returning
  `Option T × Option Err`: `none` is the nil pointer, respectively the nil error.
* A Go `map[K]V` is an association list with pairwise distinct keys (`AList`);
  `range` visits its entries in the order of the list.
* The collaborators reached through interfaces (repository, cache, the AWS SDK) are
  parameters: records of state-passing functions over an arbitrary state type.
* A pointer to an entity is the value it points to. `repo.Save` may write through the
  pointer it is handed, which `Create` and `Update` hand to `cache.Store` afterwards: its
  result carries the value the pointee has after the call. The cache and the validation
  read the entities they are handed and do not write through them.
-/

namespace sqs

/-- The Go type `Key` (a string). -/
abbrev Key := String

/-- The constant `SQSKeySample`. -/
def SQSKeySample : Key := "sample"

/-- A Go `map[Key]string`. -/
abbrev QueueMap := AList (fun _ : Key => String)

/-- The Go struct `SQSConfig`. -/
structure SQSConfig where
  Environment : String
  Region : String
  Endpoint : String
  QueueNames : QueueMap

/-- The load options `InitSQS` hands to `config.LoadDefaultConfig`: `config.WithRegion`
and `config.WithEndpointResolverWithOptions` applied to the custom resolver, which
answers every lookup with `aws.Endpoint{URL, SigningRegion}`. -/
inductive LoadOption where
  | WithRegion (region : String)
  | WithEndpointResolverWithOptions (URL SigningRegion : String)
  deriving DecidableEq, Repr

/-- The part of the AWS SDK that `InitSQS` calls. `Cfg` is `aws.Config`, `C` is
`*sqs.Client`; a result `(v, none)` is success, `(_, some err)` is failure. -/
structure SDK (Cfg C : Type) where
  LoadDefaultConfig : List LoadOption → Cfg × Option String
  NewFromConfig : Cfg → C
  GetQueueUrl : C → String → String × Option String

/-- The Go struct `SQSClient`. -/
structure SQSClient (C : Type) where
  Client : C
  QueueURLs : QueueMap

/-- The physical address `fmt.Sprintf("%s/000000000000/%s", cfg.Endpoint, queueName)`. -/
def queueURL (endpoint queueName : String) : String :=
  endpoint ++ "/000000000000/" ++ queueName

/-- The `for Key, queueName := range cfg.QueueNames` loop of `InitSQS`, over the entries
still to visit; `urls` is `sqsClient.QueueURLs` so far. The result is the map, or the
error of the early `return nil, ...` inside the loop. -/
def rangeQueueNames {Cfg C : Type} (sdk : SDK Cfg C) (cfg : SQSConfig) (client : C) :
    List (Sigma fun _ : Key => String) → QueueMap → QueueMap × Option String
  | [], urls => (urls, none)
  | ⟨key, queueName⟩ :: rest, urls =>
    if cfg.Environment ≠ "local" ∧ cfg.Environment ≠ "test" then
      match sdk.GetQueueUrl client queueName with
      | (_, some err) =>
        (urls, some ("failed to get queue URL for " ++ queueName ++ ": " ++ err))
      | (url, none) => rangeQueueNames sdk cfg client rest (urls.insert key url)
    else
      rangeQueueNames sdk cfg client rest
        (urls.insert key (queueURL cfg.Endpoint queueName))

/-- The function `InitSQS` of `initializer.go`. -/
def InitSQS {Cfg C : Type} (sdk : SDK Cfg C) (cfg : SQSConfig) :
    Option (SQSClient C) × Option String :=
  let options := [LoadOption.WithRegion cfg.Region]
  if cfg.Environment = "local" ∨ cfg.Environment = "test" then
    if cfg.Endpoint = "" then
      (none, some "SQS endpoint is required for local/test environment")
    else
      let options := options ++
        [LoadOption.WithEndpointResolverWithOptions cfg.Endpoint cfg.Region]
      match sdk.LoadDefaultConfig options with
      | (_, some err) => (none, some ("failed to load AWS config: " ++ err))
      | (awsCfg, none) =>
        let client := sdk.NewFromConfig awsCfg
        match rangeQueueNames sdk cfg client cfg.QueueNames.entries ∅ with
        | (_, some err) => (none, some err)
        | (urls, none) => (some { Client := client, QueueURLs := urls }, none)
  else
    (none, some ("invalid environment: " ++ cfg.Environment))

/-- The configuration of the "OK" case of `TestInitSQS`. -/
def testConfig : SQSConfig :=
  { Environment := "test"
    Region := "ap-northeast-1"
    Endpoint := "http://localhost:4566"
    QueueNames := AList.singleton SQSKeySample "sample-queue" }

/-- The configuration of the "NG" case of `TestInitSQS`. -/
def invalidConfig : SQSConfig :=
  { Environment := "invalid"
    Region := "ap-northeast-1"
    Endpoint := "http://localhost:4566"
    QueueNames := AList.singleton SQSKeySample "sample-queue" }

/-- An SDK whose configuration loading always succeeds and whose `GetQueueUrl` always
fails: the offline setting of the local and test environments. -/
def offlineSDK : SDK Unit Unit :=
  { LoadDefaultConfig := fun _ => ((), none)
    NewFromConfig := fun _ => ()
    GetQueueUrl := fun _ _ => ("", some "no network") }

end sqs

namespace interactor

/-- The type `uuid.UUID`: an opaque token of which only equality is used. -/
abbrev UUID := Nat

/-- Modelled from the spec: the error values of the collaborators, which are not among
the sources, by the taxonomy of §7. The interactor never builds an error, it passes on
the ones it is given. `EncodingError` stands for the errors of `encoding/json`. -/
inductive Err where
  | ValidationError (msg : String)
  | NotFoundError
  | PersistenceError (msg : String)
  | CacheError (msg : String)
  | QueueAckError (msg : String)
  | QueueTransientError (msg : String)
  | EncodingError (msg : String)
  deriving DecidableEq, Repr

/-- Modelled from the spec: the entity `model.User`, which is not among the sources; §3
gives it an identifier, an email and the two timestamps. -/
structure User where
  ID : UUID
  Email : String
  CreatedAt : Nat
  UpdatedAt : Nat
  deriving DecidableEq, Repr

/-- The Go struct `model.InputUserParams`, as `Create` and `Update` fill it. -/
structure InputUserParams where
  ID : UUID
  Email : String
  deriving DecidableEq, Repr

/-- The Go struct `port.CreateUserInput`. -/
structure CreateUserInput where
  Email : String
  deriving DecidableEq, Repr

/-- The Go struct `port.CreateUserOutput`; `User` is a pointer. -/
structure CreateUserOutput where
  User : Option User
  deriving DecidableEq, Repr

/-- The Go struct `port.GetUserInput`. -/
structure GetUserInput where
  ID : UUID
  deriving DecidableEq, Repr

/-- The Go struct `port.GetUserOutput`; `User` is a pointer. -/
structure GetUserOutput where
  User : Option User
  deriving DecidableEq, Repr

/-- The Go struct `port.UpdateUserInput`. -/
structure UpdateUserInput where
  ID : UUID
  Email : String
  deriving DecidableEq, Repr

/-- The Go struct `port.UpdateUserOutput`; `User` is a pointer. -/
structure UpdateUserOutput where
  User : Option User
  deriving DecidableEq, Repr

/-- The Go struct `port.DeleteUserInput`. -/
structure DeleteUserInput where
  ID : UUID
  deriving DecidableEq, Repr

/-- The Go struct `port.DeleteUserOutput`; `ID` is a pointer. -/
structure DeleteUserOutput where
  ID : Option UUID
  deriving DecidableEq, Repr

/-- The duration `time.Second`, in nanoseconds. -/
def Second : Nat := 1000000000

/-- A call that the interactor makes on a collaborator, with its arguments (the context
apart). `txBegin`, `txCommit` and `txRollback` are the steps of `DoInTx`. -/
inductive Call where
  | txBegin
  | txCommit
  | txRollback
  | repoSave (user : User)
  | repoFindById (id : UUID)
  | repoRemove (id : UUID)
  | cacheStore (user : Option User) (ttl : Nat)
  | cacheFindById (id : UUID)
  | cacheRemove (id : UUID)
  | logPrintf (format : String) (err : Err)
  deriving DecidableEq, Repr

/-- The packages `model` and `uuid` as the interactor uses them: `model.NewUser`,
`(*User).Validate` and `uuid.Nil()`. `NewUser` returns a non-nil pointer. -/
structure UserModel where
  NewUser : InputUserParams → User
  Validate : User → Option Err
  Nil : UUID

/-- The interface `repository.UserRepository`, over the state `ρ` of the primary store.
`Save` is handed a pointer to the entity: the first component of its result is the
pair it returns, the second is the entity that pointer holds after the call (the entity
it was handed, for a `Save` that does not write through the pointer) with the state of
the store. -/
structure UserRepository (ρ : Type) where
  Save : User → ρ → (Option User × Option Err) × User × ρ
  FindById : UUID → ρ → (Option User × Option Err) × ρ
  Remove : UUID → ρ → (Option UUID × Option Err) × ρ

/-- The interface `repository.UserCacheRepository`, over the state `κ` of the cache. -/
structure UserCacheRepository (κ : Type) where
  Store : Option User → Nat → κ → Option Err × κ
  FindById : UUID → κ → (Option User × Option Err) × κ
  Remove : UUID → κ → Option Err × κ

/-- Modelled from the spec: the implementation behind `transaction.Manager` is not among
the sources. What opening, committing and rolling back a transaction do to the primary
store is left open. -/
structure Manager (ρ : Type) where
  Begin : ρ → ρ
  Commit : ρ → ρ
  Rollback : ρ → ρ

/-- The state an operation runs in: the primary store, the cache, and the calls made
so far, oldest first. -/
structure World (ρ κ : Type) where
  repo : ρ
  cache : κ
  calls : List Call

/-- Append a call to the record of calls. -/
def World.record {ρ κ : Type} (w : World ρ κ) (c : Call) : World ρ κ :=
  { w with calls := w.calls ++ [c] }

/-- Modelled from the spec: `transaction.Manager.DoInTx` is not among the sources. §4.1:
`fn` receives a context carrying the open transaction and returns success or failure;
on success, commit; on any failure, roll back and propagate the original error
unchanged. The first component of the result of `fn` is the value that the closure
leaves in the variable it captures. -/
def Manager.DoInTx {ρ κ α : Type} (m : Manager ρ)
    (fn : World ρ κ → (α × Option Err) × World ρ κ) (w : World ρ κ) :
    (α × Option Err) × World ρ κ :=
  match fn ({ w with repo := m.Begin w.repo }.record Call.txBegin) with
  | ((a, none), w1) => ((a, none), { w1 with repo := m.Commit w1.repo }.record Call.txCommit)
  | ((a, some err), w1) =>
    ((a, some err), { w1 with repo := m.Rollback w1.repo }.record Call.txRollback)

/-- The Go struct `UserInteractor`, without the message queue, which `Create`, `Get`,
`Update` and `Delete` do not touch. -/
structure UserInteractor (ρ κ : Type) where
  model : UserModel
  txManager : Manager ρ
  repo : UserRepository ρ
  cache : UserCacheRepository κ

variable {ρ κ : Type}

/-- The closure handed to `DoInTx`: the call `i.repo.Save(ctx, user)`. The value part of
the result is the pointer assigned to the captured variable, with the entity that
`user` points to after the call. -/
def UserInteractor.repoSave (i : UserInteractor ρ κ) (user : User) (w : World ρ κ) :
    ((Option User × User) × Option Err) × World ρ κ :=
  ((((i.repo.Save user w.repo).1.1, (i.repo.Save user w.repo).2.1),
      (i.repo.Save user w.repo).1.2),
    { w with repo := (i.repo.Save user w.repo).2.2 }.record (Call.repoSave user))

/-- The call `i.repo.FindById(ctx, id)`. -/
def UserInteractor.repoFindById (i : UserInteractor ρ κ) (id : UUID) (w : World ρ κ) :
    (Option User × Option Err) × World ρ κ :=
  ((i.repo.FindById id w.repo).1,
    { w with repo := (i.repo.FindById id w.repo).2 }.record (Call.repoFindById id))

/-- The call `i.repo.Remove(ctx, id)`. -/
def UserInteractor.repoRemove (i : UserInteractor ρ κ) (id : UUID) (w : World ρ κ) :
    (Option UUID × Option Err) × World ρ κ :=
  ((i.repo.Remove id w.repo).1,
    { w with repo := (i.repo.Remove id w.repo).2 }.record (Call.repoRemove id))

/-- The call `i.cache.Store(ctx, user, ttl)`. -/
def UserInteractor.cacheStore (i : UserInteractor ρ κ) (user : Option User) (ttl : Nat)
    (w : World ρ κ) : Option Err × World ρ κ :=
  ((i.cache.Store user ttl w.cache).1,
    { w with cache := (i.cache.Store user ttl w.cache).2 }.record (Call.cacheStore user ttl))

/-- The call `i.cache.FindById(ctx, id)`. -/
def UserInteractor.cacheFindById (i : UserInteractor ρ κ) (id : UUID) (w : World ρ κ) :
    (Option User × Option Err) × World ρ κ :=
  ((i.cache.FindById id w.cache).1,
    { w with cache := (i.cache.FindById id w.cache).2 }.record (Call.cacheFindById id))

/-- The call `i.cache.Remove(ctx, id)`. -/
def UserInteractor.cacheRemove (i : UserInteractor ρ κ) (id : UUID) (w : World ρ κ) :
    Option Err × World ρ κ :=
  ((i.cache.Remove id w.cache).1,
    { w with cache := (i.cache.Remove id w.cache).2 }.record (Call.cacheRemove id))

/-- The statement `if err := ...; err != nil { log.Printf(format, err) }`. -/
def logIfErr (format : String) (err : Option Err) (w : World ρ κ) : World ρ κ :=
  match err with
  | some e => w.record (Call.logPrintf format e)
  | none => w

/-- The method `UserInteractor.Create` of `user.go`. -/
def UserInteractor.Create (i : UserInteractor ρ κ) (input : CreateUserInput)
    (w : World ρ κ) : (Option CreateUserOutput × Option Err) × World ρ κ :=
  let user := i.model.NewUser { ID := i.model.Nil, Email := input.Email }
  match i.model.Validate user with
  | some err => ((none, some err), w)
  | none =>
    match i.txManager.DoInTx (fun w => i.repoSave user w) w with
    | ((_, some err), w1) => ((none, some err), w1)
    | (((createdUser, user), none), w1) =>
      match i.cacheStore (some user) (3600 * Second) w1 with
      | (err, w2) =>
        ((some { User := createdUser }, none), logIfErr "failed to set cache: %v\n" err w2)

/-- The method `UserInteractor.Get` of `user.go`. -/
def UserInteractor.Get (i : UserInteractor ρ κ) (input : GetUserInput)
    (w : World ρ κ) : (Option GetUserOutput × Option Err) × World ρ κ :=
  match i.cacheFindById input.ID w with
  | ((user, none), w1) => ((some { User := user }, none), w1)
  | ((_, some _), w1) =>
    match i.repoFindById input.ID w1 with
    | ((_, some err), w2) => ((none, some err), w2)
    | ((user, none), w2) =>
      match i.cacheStore user (3600 * Second) w2 with
      | (err, w3) =>
        ((some { User := user }, none), logIfErr "failed to set cache: %v\n" err w3)

/-- The method `UserInteractor.Update` of `user.go`. -/
def UserInteractor.Update (i : UserInteractor ρ κ) (input : UpdateUserInput)
    (w : World ρ κ) : (Option UpdateUserOutput × Option Err) × World ρ κ :=
  let user := i.model.NewUser { ID := input.ID, Email := input.Email }
  match i.model.Validate user with
  | some err => ((none, some err), w)
  | none =>
    match i.txManager.DoInTx (fun w => i.repoSave user w) w with
    | ((_, some err), w1) => ((none, some err), w1)
    | (((updatedUser, user), none), w1) =>
      match i.cacheStore (some user) (3600 * Second) w1 with
      | (err, w2) =>
        ((some { User := updatedUser }, none), logIfErr "failed to set cache: %v\n" err w2)

/-- The method `UserInteractor.Delete` of `user.go`. -/
def UserInteractor.Delete (i : UserInteractor ρ κ) (input : DeleteUserInput)
    (w : World ρ κ) : (Option DeleteUserOutput × Option Err) × World ρ κ :=
  match i.txManager.DoInTx (fun w => i.repoRemove input.ID w) w with
  | ((_, some err), w1) => ((none, some err), w1)
  | ((deletedID, none), w1) =>
    match i.cacheRemove input.ID w1 with
    | (err, w2) =>
      ((some { ID := deletedID }, none), logIfErr "failed to delete cache: %v\n" err w2)

/-! ### Reference collaborators

Concrete collaborators on which the theorems are instantiated: a primary store and a
cache that are lists of entities, and an entity model whose validation asks for a
non-empty email. -/

/-- A primary store: its rows and, while a transaction is open, the rows to go back to. -/
structure Table where
  rows : List User
  undo : Option (List User)
  deriving DecidableEq, Repr

/-- A transaction manager for `Table`: rolling back restores the rows of `Begin`. -/
def tableManager : Manager Table :=
  { Begin := fun t => { t with undo := some t.rows }
    Commit := fun t => { t with undo := none }
    Rollback := fun t => { rows := t.undo.getD t.rows, undo := none } }

/-- A repository on `Table`. `Save` writes `stamp user` (the store may set fields of the
row it writes, such as the timestamps) and returns it; with `inPlace` it writes the row
through the pointer it was handed and returns that pointer, without it returns a new
entity and leaves the one it was handed as it was. With `upsert` it inserts a row for
an unknown identifier, without it reports `NotFoundError` there. -/
def tableRepositoryWith (inPlace : Bool) (stamp : User → User) (upsert : Bool) :
    UserRepository Table :=
  { Save := fun user t =>
      if upsert ∨ (t.rows.find? (fun u => u.ID = user.ID)).isSome then
        ((some (stamp user), none), if inPlace then stamp user else user,
          { t with rows := stamp user :: t.rows.filter (fun u => u.ID ≠ user.ID) })
      else ((none, some Err.NotFoundError), user, t)
    FindById := fun id t =>
      match t.rows.find? (fun u => u.ID = id) with
      | some u => ((some u, none), t)
      | none => ((none, some Err.NotFoundError), t)
    Remove := fun id t =>
      if (t.rows.find? (fun u => u.ID = id)).isSome then
        ((some id, none), { t with rows := t.rows.filter (fun u => u.ID ≠ id) })
      else ((none, some Err.NotFoundError), t) }

/-- The repository on `Table` whose `Save` returns a new entity and leaves the one it
was handed as it was. -/
def tableRepository (stamp : User → User) (upsert : Bool) : UserRepository Table :=
  tableRepositoryWith false stamp upsert

/-- A cache that is a list of entities keyed by identifier. `storeOk` and `removeOk` say
whether `Store` and `Remove` work or fail with a `CacheError`; a miss is an error. -/
def listCache (storeOk removeOk : Bool) : UserCacheRepository (List User) :=
  { Store := fun user _ c =>
      match user with
      | some u =>
        if storeOk then (none, u :: c.filter (fun v => v.ID ≠ u.ID))
        else (some (Err.CacheError "store failed"), c)
      | none => (some (Err.CacheError "nil user"), c)
    FindById := fun id c =>
      match c.find? (fun u => u.ID = id) with
      | some u => ((some u, none), c)
      | none => ((none, some Err.NotFoundError), c)
    Remove := fun id c =>
      if removeOk then (none, c.filter (fun u => u.ID ≠ id))
      else (some (Err.CacheError "remove failed"), c) }

/-- An entity model: `NewUser` copies the parameters, `Validate` asks for a non-empty
email, the nil identifier is `0`. -/
def plainModel : UserModel :=
  { NewUser := fun p => { ID := p.ID, Email := p.Email, CreatedAt := 0, UpdatedAt := 0 }
    Validate := fun u =>
      if u.Email = "" then some (Err.ValidationError "email is required") else none
    Nil := 0 }

/-- The interactor over the reference collaborators. -/
def listInteractor (stamp : User → User) (upsert storeOk removeOk : Bool) :
    UserInteractor Table (List User) :=
  { model := plainModel
    txManager := tableManager
    repo := tableRepository stamp upsert
    cache := listCache storeOk removeOk }

/-- The interactor over the reference collaborators whose `Save` writes the row through
the pointer it was handed and returns that pointer. -/
def inPlaceInteractor (stamp : User → User) (upsert storeOk removeOk : Bool) :
    UserInteractor Table (List User) :=
  { model := plainModel
    txManager := tableManager
    repo := tableRepositoryWith true stamp upsert
    cache := listCache storeOk removeOk }

/-- A store that sets the update timestamp of the row it writes. -/
def stampUpdatedAt (now : Nat) (u : User) : User := { u with UpdatedAt := now }

/-- The entity with identifier `1` used in the examples. -/
def alice : User := { ID := 1, Email := "alice@example.com", CreatedAt := 0, UpdatedAt := 0 }

/-- The empty store and cache, no call made. -/
def emptyWorld : World Table (List User) :=
  { repo := { rows := [], undo := none }, cache := [], calls := [] }

/-- A store and a cache that both hold `alice`, no call made. -/
def aliceWorld : World Table (List User) :=
  { repo := { rows := [alice], undo := none }, cache := [alice], calls := [] }

/-- A store that holds `alice` and an empty cache, no call made. -/
def coldWorld : World Table (List User) :=
  { repo := { rows := [alice], undo := none }, cache := [], calls := [] }

/-! ### The message queue: `ProcessMessage` -/

/-- The Go struct `model.Message`, with the two fields `ProcessMessage` uses. -/
structure Message where
  Body : String
  ReceiptHandle : String
  deriving DecidableEq, Repr

/-- The Go struct `repository.ReceiveMessageOptions`. -/
structure ReceiveMessageOptions where
  MaxNumberOfMessages : Nat
  deriving DecidableEq, Repr

/-- The Go struct `port.ProcessMessageInput`. -/
structure ProcessMessageInput where
  ID : UUID
  deriving DecidableEq, Repr

/-- The Go struct `port.ProcessMessageOutput`; `ID` is a pointer. -/
structure ProcessMessageOutput where
  ID : Option UUID
  deriving DecidableEq, Repr

/-- The interface `repository.MessageQueueRepository`, over the state `μ` of the queue. -/
structure MessageQueueRepository (μ : Type) where
  SendMessage : Message → μ → Option Err × μ
  ReceiveMessage : ReceiveMessageOptions → μ → (List Message × Option Err) × μ
  DeleteMessage : String → μ → Option Err × μ

/-- The functions `json.Marshal` and `json.Unmarshal` at the type `uuid.UUID`: the bytes
as a string, respectively the identifier read, with the error. -/
structure JSON where
  Marshal : UUID → String × Option Err
  Unmarshal : String → UUID × Option Err

/-- A call that `ProcessMessage` makes on the queue or on the logger, with its
arguments (the context apart). -/
inductive QueueCall where
  | sendMessage (message : Message)
  | receiveMessage (opts : ReceiveMessageOptions)
  | deleteMessage (receiptHandle : String)
  | logPrintf (format : String) (err : Err)
  | logPrintfID (format : String) (userID : UUID)
  deriving DecidableEq, Repr

/-- The state `ProcessMessage` runs in: the queue and the calls made so far, oldest
first. -/
structure QueueWorld (μ : Type) where
  queue : μ
  calls : List QueueCall

variable {μ : Type}

/-- Append a call to the record of calls. -/
def QueueWorld.record (w : QueueWorld μ) (c : QueueCall) : QueueWorld μ :=
  { w with calls := w.calls ++ [c] }

/-- The deferred function of `ProcessMessage`: `DeleteMessage` with the receipt handle,
and a log line when it fails. -/
def deferredDelete (msgQueue : MessageQueueRepository μ) (receiptHandle : String)
    (w : QueueWorld μ) : QueueWorld μ :=
  match msgQueue.DeleteMessage receiptHandle w.queue with
  | (some err, q) =>
    ({ w with queue := q }.record (QueueCall.deleteMessage receiptHandle)).record
      (QueueCall.logPrintf "Failed to delete message: %v" err)
  | (none, q) => { w with queue := q }.record (QueueCall.deleteMessage receiptHandle)

/-- The method `UserInteractor.ProcessMessage` of `user.go`. Of its receiver it uses the
field `msgQueue` only, which is the argument here, next to `encoding/json`. -/
def UserInteractor.ProcessMessage (json : JSON) (msgQueue : MessageQueueRepository μ)
    (input : ProcessMessageInput) (w : QueueWorld μ) :
    (Option ProcessMessageOutput × Option Err) × QueueWorld μ :=
  match json.Marshal input.ID with
  | (_, some err) => ((none, some err), w)
  | (userIDBytes, none) =>
    match msgQueue.SendMessage { Body := userIDBytes, ReceiptHandle := "" } w.queue with
    | (some err, q1) =>
      ((none, some err), { w with queue := q1 }.record
        (QueueCall.sendMessage { Body := userIDBytes, ReceiptHandle := "" }))
    | (none, q1) =>
      match msgQueue.ReceiveMessage { MaxNumberOfMessages := 1 } q1 with
      | ((_, some err), q2) =>
        ((none, some err),
          { queue := q2, calls := w.calls ++
            [QueueCall.sendMessage { Body := userIDBytes, ReceiptHandle := "" },
             QueueCall.receiveMessage { MaxNumberOfMessages := 1 }] })
      | (([], none), q2) =>
        ((none, none),
          { queue := q2, calls := w.calls ++
            [QueueCall.sendMessage { Body := userIDBytes, ReceiptHandle := "" },
             QueueCall.receiveMessage { MaxNumberOfMessages := 1 }] })
      | ((msg :: _, none), q2) =>
        match json.Unmarshal msg.Body with
        | (_, some err) =>
          ((none, some err),
            deferredDelete msgQueue msg.ReceiptHandle
              { queue := q2, calls := w.calls ++
                [QueueCall.sendMessage { Body := userIDBytes, ReceiptHandle := "" },
                 QueueCall.receiveMessage { MaxNumberOfMessages := 1 }] })
        | (userID, none) =>
          ((some { ID := some userID }, none),
            deferredDelete msgQueue msg.ReceiptHandle
              { queue := q2, calls := w.calls ++
                [QueueCall.sendMessage { Body := userIDBytes, ReceiptHandle := "" },
                 QueueCall.receiveMessage { MaxNumberOfMessages := 1 },
                 QueueCall.logPrintfID "Dequeued user_id: %s\n" userID] })

/-! ### Reference queue -/

/-- A queue that is the list of the messages it holds, oldest first. `SendMessage`
gives the message the receipt handle "rh:" followed by its body. With `delivers`,
`ReceiveMessage` answers the oldest messages, at most the number asked for, and leaves
them in the queue until they are deleted; without it no message is visible yet and the
answer is empty. `deleteOk` says whether `DeleteMessage` works or fails. -/
def listQueue (delivers deleteOk : Bool) : MessageQueueRepository (List Message) :=
  { SendMessage := fun m q => (none, q ++ [{ m with ReceiptHandle := "rh:" ++ m.Body }])
    ReceiveMessage := fun opts q =>
      if delivers then ((q.take opts.MaxNumberOfMessages, none), q) else (([], none), q)
    DeleteMessage := fun h q =>
      if deleteOk then (none, q.filter (fun m => m.ReceiptHandle ≠ h))
      else (some (Err.QueueAckError "delete failed"), q) }

/-- A codec that writes the identifier `n` as `n` strokes and reads back the number of
strokes; any other character is an error. -/
def strokeJSON : JSON :=
  { Marshal := fun n => (String.mk (List.replicate n '|'), none)
    Unmarshal := fun s =>
      if s.data.all (fun c => c = '|') then (s.data.length, none)
      else (0, some (Err.EncodingError "invalid character")) }

/-- A queue that holds one message whose body is not an identifier, no call made. -/
def strayQueue : QueueWorld (List Message) :=
  { queue := [{ Body := "stray", ReceiptHandle := "rh:stray" }], calls := [] }

/-! ### The match interactor: `match.go` -/

/-- A transaction handle, as `repo.BeginTx` returns it. -/
abbrev Tx := Nat

/-- The entity `model.Match`, with the fields `match.go` writes (`Status`, `UpdatedAt`)
and the identifiers. -/
structure Match where
  ID : UUID
  MeID : UUID
  PartnerID : UUID
  Status : String
  UpdatedAt : Nat
  deriving DecidableEq, Repr

/-- The Go struct `input.CreateMatchInput`. -/
structure CreateMatchInput where
  MeID : UUID
  PartnerID : UUID
  deriving DecidableEq, Repr

/-- The Go struct `output.CreateMatchOutput`; `Match` is a pointer. -/
structure CreateMatchOutput where
  Match : Option Match
  deriving DecidableEq, Repr

/-- The Go struct `input.UpdateMatchInput`. -/
structure UpdateMatchInput where
  ID : UUID
  Status : String
  deriving DecidableEq, Repr

/-- The Go struct `output.UpdateMatchOutput`; `Match` is a pointer. -/
structure UpdateMatchOutput where
  Match : Option Match
  deriving DecidableEq, Repr

/-- The Go struct `input.DeleteMatchInput`. -/
structure DeleteMatchInput where
  ID : UUID
  deriving DecidableEq, Repr

/-- The Go struct `output.DeleteMatchOutput`; `ID` is a pointer. -/
structure DeleteMatchOutput where
  ID : Option UUID
  deriving DecidableEq, Repr

/-- A call that the match interactor makes, with its arguments (the context apart).
`commit` and `rollback` are the methods of the transaction handle. -/
inductive MatchCall where
  | beginTx
  | createMatch (meID partnerID : UUID)
  | createTx (tx : Tx) (m : Option Match)
  | get (id : UUID)
  | updateTx (tx : Tx) (m : Match)
  | deleteTx (tx : Tx) (id : UUID)
  | commit (tx : Tx)
  | rollback (tx : Tx)
  | logPrintf (format : String) (err : Err)
  deriving DecidableEq, Repr

/-- The interface `repository.MatchRepository` as `match.go` uses it, with the methods
`Commit` and `Rollback` of the handle that `BeginTx` returns, over the state `σ` of the
primary store. `Get` returns the entity that `Update` then writes to. -/
structure MatchRepository (σ : Type) where
  BeginTx : σ → (Tx × Option Err) × σ
  CreateTx : Tx → Option Match → σ → (Option Match × Option Err) × σ
  Get : UUID → σ → (Match × Option Err) × σ
  UpdateTx : Tx → Match → σ → (Option Match × Option Err) × σ
  DeleteTx : Tx → UUID → σ → (Option UUID × Option Err) × σ
  Commit : Tx → σ → Option Err × σ
  Rollback : Tx → σ → Option Err × σ

/-- The struct `service.MatchingDomainService` as `match.go` uses it. -/
structure MatchingDomainService (σ : Type) where
  CreateMatch : UUID → UUID → σ → (Option Match × Option Err) × σ

/-- The Go struct `matchInteractor`, with the clock that `time.Now()` reads. -/
structure matchInteractor (σ : Type) where
  repo : MatchRepository σ
  service : MatchingDomainService σ
  Now : σ → Nat

/-- The state a match operation runs in: the primary store and the calls made so far,
oldest first. -/
structure MatchWorld (σ : Type) where
  env : σ
  calls : List MatchCall

variable {σ : Type}

/-- The deferred function of `Create`, `Update` and `Delete`: `tx.Rollback()`, and a log
line when it fails. -/
def deferredRollback (i : matchInteractor σ) (tx : Tx) (w : MatchWorld σ) : MatchWorld σ :=
  match i.repo.Rollback tx w.env with
  | (some err, e) =>
    { env := e, calls := w.calls ++
      [MatchCall.rollback tx, MatchCall.logPrintf "failed to rollback transaction: %v\n" err] }
  | (none, e) => { env := e, calls := w.calls ++ [MatchCall.rollback tx] }

/-- The method `matchInteractor.Create` of `match.go`. The rollback is deferred after
the call of `CreateMatch`, so the return on its error runs no deferred function. -/
def matchInteractor.Create (i : matchInteractor σ) (input : CreateMatchInput)
    (w : MatchWorld σ) : (Option CreateMatchOutput × Option Err) × MatchWorld σ :=
  match i.repo.BeginTx w.env with
  | ((_, some err), e1) => ((none, some err), { env := e1, calls := w.calls ++ [MatchCall.beginTx] })
  | ((tx, none), e1) =>
    match i.service.CreateMatch input.MeID input.PartnerID e1 with
    | ((_, some err), e2) =>
      ((none, some err),
        { env := e2, calls := w.calls ++
          [MatchCall.beginTx, MatchCall.createMatch input.MeID input.PartnerID] })
    | ((m, none), e2) =>
      match i.repo.CreateTx tx m e2 with
      | ((_, some err), e3) =>
        ((none, some err),
          deferredRollback i tx { env := e3, calls := w.calls ++
            [MatchCall.beginTx, MatchCall.createMatch input.MeID input.PartnerID,
             MatchCall.createTx tx m] })
      | ((createdMatch, none), e3) =>
        match i.repo.Commit tx e3 with
        | (some err, e4) =>
          ((none, some err),
            deferredRollback i tx { env := e4, calls := w.calls ++
              [MatchCall.beginTx, MatchCall.createMatch input.MeID input.PartnerID,
               MatchCall.createTx tx m, MatchCall.commit tx] })
        | (none, e4) =>
          ((some { Match := createdMatch }, none),
            deferredRollback i tx { env := e4, calls := w.calls ++
              [MatchCall.beginTx, MatchCall.createMatch input.MeID input.PartnerID,
               MatchCall.createTx tx m, MatchCall.commit tx] })

/-- The method `matchInteractor.Update` of `match.go`. -/
def matchInteractor.Update (i : matchInteractor σ) (input : UpdateMatchInput)
    (w : MatchWorld σ) : (Option UpdateMatchOutput × Option Err) × MatchWorld σ :=
  match i.repo.Get input.ID w.env with
  | ((_, some err), e1) =>
    ((none, some err), { env := e1, calls := w.calls ++ [MatchCall.get input.ID] })
  | ((m0, none), e1) =>
    match i.repo.BeginTx e1 with
    | ((_, some err), e2) =>
      ((none, some err),
        { env := e2, calls := w.calls ++ [MatchCall.get input.ID, MatchCall.beginTx] })
    | ((tx, none), e2) =>
      match i.repo.UpdateTx tx { m0 with Status := input.Status, UpdatedAt := i.Now e1 } e2 with
      | ((_, some err), e3) =>
        ((none, some err),
          deferredRollback i tx { env := e3, calls := w.calls ++
            [MatchCall.get input.ID, MatchCall.beginTx,
             MatchCall.updateTx tx
               { m0 with Status := input.Status, UpdatedAt := i.Now e1 }] })
      | ((updatedMatch, none), e3) =>
        match i.repo.Commit tx e3 with
        | (some err, e4) =>
          ((none, some err),
            deferredRollback i tx { env := e4, calls := w.calls ++
              [MatchCall.get input.ID, MatchCall.beginTx,
               MatchCall.updateTx tx
                 { m0 with Status := input.Status, UpdatedAt := i.Now e1 },
               MatchCall.commit tx] })
        | (none, e4) =>
          ((some { Match := updatedMatch }, none),
            deferredRollback i tx { env := e4, calls := w.calls ++
              [MatchCall.get input.ID, MatchCall.beginTx,
               MatchCall.updateTx tx
                 { m0 with Status := input.Status, UpdatedAt := i.Now e1 },
               MatchCall.commit tx] })

/-- The method `matchInteractor.Delete` of `match.go`. -/
def matchInteractor.Delete (i : matchInteractor σ) (input : DeleteMatchInput)
    (w : MatchWorld σ) : (Option DeleteMatchOutput × Option Err) × MatchWorld σ :=
  match i.repo.BeginTx w.env with
  | ((_, some err), e1) =>
    ((none, some err), { env := e1, calls := w.calls ++ [MatchCall.beginTx] })
  | ((tx, none), e1) =>
    match i.repo.DeleteTx tx input.ID e1 with
    | ((_, some err), e2) =>
      ((none, some err),
        deferredRollback i tx { env := e2, calls := w.calls ++
          [MatchCall.beginTx, MatchCall.deleteTx tx input.ID] })
    | ((deletedID, none), e2) =>
      match i.repo.Commit tx e2 with
      | (some err, e3) =>
        ((none, some err),
          deferredRollback i tx { env := e3, calls := w.calls ++
            [MatchCall.beginTx, MatchCall.deleteTx tx input.ID, MatchCall.commit tx] })
      | (none, e3) =>
        ((some { ID := deletedID }, none),
          deferredRollback i tx { env := e3, calls := w.calls ++
            [MatchCall.beginTx, MatchCall.deleteTx tx input.ID, MatchCall.commit tx] })

/-! ### Reference match store -/

/-- A primary store of matches: its rows, the transaction handles that are open, and
the next handle to give out. -/
structure MatchStore where
  rows : List Match
  openTx : List Tx
  nextTx : Tx
  deriving DecidableEq, Repr

/-- A match interactor on `MatchStore`. `BeginTx` opens a fresh handle; `Commit` and
`Rollback` close an open handle and fail on a handle that is not open; the domain
service refuses to match a user with themselves. -/
def storeInteractor : matchInteractor MatchStore :=
  { repo :=
      { BeginTx := fun s =>
          ((s.nextTx, none), { s with openTx := s.nextTx :: s.openTx, nextTx := s.nextTx + 1 })
        CreateTx := fun _ m s =>
          match m with
          | some m => ((some m, none), { s with rows := m :: s.rows })
          | none => ((none, some (Err.PersistenceError "nil match")), s)
        Get := fun id s =>
          match s.rows.find? (fun m => m.ID = id) with
          | some m => ((m, none), s)
          | none => ((⟨0, 0, 0, "", 0⟩, some Err.NotFoundError), s)
        UpdateTx := fun _ m s =>
          ((some m, none), { s with rows := m :: s.rows.filter (fun r => r.ID ≠ m.ID) })
        DeleteTx := fun _ id s =>
          ((some id, none), { s with rows := s.rows.filter (fun r => r.ID ≠ id) })
        Commit := fun tx s =>
          if tx ∈ s.openTx then (none, { s with openTx := s.openTx.filter (fun t => t ≠ tx) })
          else (some (Err.PersistenceError "transaction has already been closed"), s)
        Rollback := fun tx s =>
          if tx ∈ s.openTx then (none, { s with openTx := s.openTx.filter (fun t => t ≠ tx) })
          else (some (Err.PersistenceError "transaction has already been closed"), s) }
    service :=
      { CreateMatch := fun me partner s =>
          if me = partner then
            ((none, some (Err.ValidationError "cannot match a user with themselves")), s)
          else ((some ⟨me + partner, me, partner, "pending", 0⟩, none), s) }
    Now := fun _ => 7 }

/-- An empty match store with no open transaction, no call made. -/
def emptyStore : MatchWorld MatchStore :=
  { env := { rows := [], openTx := [], nextTx := 0 }, calls := [] }

end interactor

namespace sample_subscriber

open interactor (Err Second ProcessMessageInput)

/-- What `Run` reaches through its arguments and the runtime, over the state `σ` of the
environment: whether the channel `ctx.Done()` is ready (the context is cancelled), the
method `dependency.UserInteractor.ProcessMessage`, which in `run.go` returns an error
only, and `time.Sleep`. -/
structure Dependency (σ : Type) where
  Done : σ → Bool
  ProcessMessage : ProcessMessageInput → σ → Option Err × σ
  Sleep : Nat → σ → σ

/-- A call that `Run` makes, with its arguments (the context apart). -/
inductive RunCall where
  | processMessage (input : ProcessMessageInput)
  | logPrintf (format : String) (err : Err)
  | sleep (d : Nat)
  deriving DecidableEq, Repr

/-- The state `Run` is in: the environment and the calls made so far, oldest first. -/
structure RunWorld (σ : Type) where
  env : σ
  calls : List RunCall

variable {σ : Type}

/-- The `default` branch of the `select` of `Run`: one call of `ProcessMessage` on the
zero-valued input and, on an error, a log line and a sleep of five seconds. -/
def iteration (dependency : Dependency σ) (w : RunWorld σ) : RunWorld σ :=
  match dependency.ProcessMessage { ID := 0 } w.env with
  | (some err, e) =>
    { env := dependency.Sleep (5 * Second) e
      calls := w.calls ++
        [RunCall.processMessage { ID := 0 },
         RunCall.logPrintf "Error processing message: %v" err,
         RunCall.sleep (5 * Second)] }
  | (none, e) => { env := e, calls := w.calls ++ [RunCall.processMessage { ID := 0 }] }

/-- The function `Run` of `run.go`, for at most `fuel` passes through the `for` loop. The
first component is `some err` when `Run` has returned `err` (`some none` is the return
of a nil error) and `none` when the loop is still running after `fuel` passes. -/
def Run (dependency : Dependency σ) (args : List String) :
    Nat → RunWorld σ → Option (Option Err) × RunWorld σ
  | 0, w => (none, w)
  | fuel + 1, w =>
    if dependency.Done w.env then (some none, w)
    else Run dependency args fuel (iteration dependency w)

/-- An environment that plays a script: the outcomes of the coming `ProcessMessage`
calls, after which the context is cancelled, and the time slept so far. -/
structure Script where
  outcomes : List (Option Err)
  slept : Nat
  deriving DecidableEq, Repr

/-- The dependency that plays a `Script`. -/
def scripted : Dependency Script :=
  { Done := fun s => s.outcomes.isEmpty
    ProcessMessage := fun _ s => (s.outcomes.head?.join, { s with outcomes := s.outcomes.tail })
    Sleep := fun d s => { s with slept := s.slept + d } }

/-- A context that is cancelled from the start, no call made. -/
def cancelledWorld : RunWorld Script := { env := { outcomes := [], slept := 0 }, calls := [] }

end sample_subscriber

/-! ## Theorems -/

namespace sqs

/-- In the local and test environments the loop never asks the SDK: it ends without an
error, and the map it returns sends a key of the visited entries to the synthesized
address and leaves the other keys as they were. -/
theorem rangeQueueNames_local {Cfg C : Type} (sdk : SDK Cfg C) (cfg : SQSConfig) (client : C)
    (henv : cfg.Environment = "local" ∨ cfg.Environment = "test") :
    ∀ (l : List (Sigma fun _ : Key => String)) (urls : QueueMap), l.NodupKeys →
      (rangeQueueNames sdk cfg client l urls).2 = none ∧
      ∀ k, (rangeQueueNames sdk cfg client l urls).1.lookup k =
        match l.dlookup k with
        | some n => some (queueURL cfg.Endpoint n)
        | none => urls.lookup k := by
  have hnot : ¬ (cfg.Environment ≠ "local" ∧ cfg.Environment ≠ "test") := by
    rcases henv with h | h <;> simp [h]
  intro l
  induction l with
  | nil => intro urls _; simp [rangeQueueNames]
  | cons hd tl ih =>
    intro urls hnd
    obtain ⟨key, queueName⟩ := hd
    rw [List.nodupKeys_cons] at hnd
    obtain ⟨hnotin, hnd⟩ := hnd
    have ih := ih (urls.insert key (queueURL cfg.Endpoint queueName)) hnd
    simp only [rangeQueueNames, if_neg hnot]
    refine ⟨ih.1, fun k => ?_⟩
    rw [ih.2 k]
    by_cases hk : key = k
    · subst hk
      have hnone : List.dlookup key tl = none := List.dlookup_eq_none.mpr hnotin
      simp [hnone, List.dlookup_cons_eq]
    · have hk2 : k ≠ key := fun h => hk h.symm
      rw [List.dlookup_cons_ne tl ⟨key, queueName⟩ hk2]
      cases hl : List.dlookup k tl with
      | some n => rfl
      | none => simp [AList.lookup_insert_ne hk2]

/-- C1: for every configuration whose environment is "local" or "test", whose endpoint
is non-empty and for which loading the AWS configuration succeeds, `InitSQS` returns a
client and a nil error; the client's `QueueURLs` has exactly the keys of
`cfg.QueueNames` and sends each key `k` to
`Endpoint + "/000000000000/" + QueueNames[k]`. -/
theorem InitSQS_local_test_queue_urls {Cfg C : Type} (sdk : SDK Cfg C) (cfg : SQSConfig)
    (henv : cfg.Environment = "local" ∨ cfg.Environment = "test")
    (hendpoint : cfg.Endpoint ≠ "")
    (hload : (sdk.LoadDefaultConfig
      [LoadOption.WithRegion cfg.Region,
       LoadOption.WithEndpointResolverWithOptions cfg.Endpoint cfg.Region]).2 = none) :
    ∃ client : SQSClient C, InitSQS sdk cfg = (some client, none) ∧
      (∀ k, k ∈ client.QueueURLs ↔ k ∈ cfg.QueueNames) ∧
      ∀ k, client.QueueURLs.lookup k =
        (cfg.QueueNames.lookup k).map (fun n => cfg.Endpoint ++ "/000000000000/" ++ n) := by
  rcases hL : sdk.LoadDefaultConfig
      [LoadOption.WithRegion cfg.Region,
       LoadOption.WithEndpointResolverWithOptions cfg.Endpoint cfg.Region] with ⟨awsCfg, e⟩
  rw [hL] at hload
  simp only at hload
  subst hload
  have hloop := rangeQueueNames_local sdk cfg (sdk.NewFromConfig awsCfg) henv
    cfg.QueueNames.entries ∅ cfg.QueueNames.nodupKeys
  rcases hR : rangeQueueNames sdk cfg (sdk.NewFromConfig awsCfg)
      cfg.QueueNames.entries ∅ with ⟨urls, e⟩
  rw [hR] at hloop
  obtain ⟨herr, hmap⟩ := hloop
  simp only at herr hmap
  subst herr
  have hvals : ∀ k, urls.lookup k =
      (cfg.QueueNames.lookup k).map (fun n => cfg.Endpoint ++ "/000000000000/" ++ n) := by
    intro k
    rw [hmap k]
    show _ = Option.map _ (List.dlookup k cfg.QueueNames.entries)
    cases List.dlookup k cfg.QueueNames.entries with
    | some n => rfl
    | none => simp
  refine ⟨⟨sdk.NewFromConfig awsCfg, urls⟩, ?_, ?_, hvals⟩
  · unfold InitSQS
    rw [if_pos henv, if_neg hendpoint]
    simp only [List.singleton_append, hL, hR]
  · intro k
    rw [← AList.lookup_isSome, ← AList.lookup_isSome, hvals k]
    cases AList.lookup k cfg.QueueNames <;> rfl

/-- C1 at the configuration of the repository's own test. -/
theorem InitSQS_local_test_queue_urls_witness :
    ∃ client : SQSClient Unit, InitSQS offlineSDK testConfig = (some client, none) ∧
      (∀ k, k ∈ client.QueueURLs ↔ k ∈ testConfig.QueueNames) ∧
      ∀ k, client.QueueURLs.lookup k =
        (testConfig.QueueNames.lookup k).map
          (fun n => testConfig.Endpoint ++ "/000000000000/" ++ n) :=
  InitSQS_local_test_queue_urls offlineSDK testConfig (Or.inr rfl) (by decide) rfl

/-- The case of the repository's own test, evaluated: the key "sample" is sent to
"http://localhost:4566/000000000000/sample-queue". -/
theorem InitSQS_testConfig_sample :
    (InitSQS offlineSDK testConfig).1.map (fun c => c.QueueURLs.lookup SQSKeySample)
      = some (some "http://localhost:4566/000000000000/sample-queue") ∧
    (InitSQS offlineSDK testConfig).2 = none := by
  decide

/-- C2: `InitSQS` returns a nil client and a non-nil error for every configuration whose
environment is neither "local" nor "test", whatever its other fields, and for every
configuration whose environment is "local" or "test" and whose endpoint is empty; the
error is the message of the branch that rejected the configuration. -/
theorem InitSQS_rejects_bad_config {Cfg C : Type} (sdk : SDK Cfg C) (cfg : SQSConfig)
    (hbad : (cfg.Environment ≠ "local" ∧ cfg.Environment ≠ "test") ∨
      ((cfg.Environment = "local" ∨ cfg.Environment = "test") ∧ cfg.Endpoint = "")) :
    (InitSQS sdk cfg).1 = none ∧ (InitSQS sdk cfg).2 ≠ none ∧
    (InitSQS sdk cfg).2 = some
      (if cfg.Environment = "local" ∨ cfg.Environment = "test" then
        "SQS endpoint is required for local/test environment"
      else "invalid environment: " ++ cfg.Environment) := by
  rcases hbad with ⟨h1, h2⟩ | ⟨henv, hendpoint⟩
  · have hnot : ¬ (cfg.Environment = "local" ∨ cfg.Environment = "test") := by
      rintro (h | h)
      · exact h1 h
      · exact h2 h
    simp [InitSQS, hnot]
  · simp [InitSQS, henv, hendpoint]

/-- C2 at the "NG" configuration of the repository's own test (environment "invalid")
and at the test configuration with its endpoint emptied. -/
theorem InitSQS_rejects_bad_config_witness :
    ((InitSQS offlineSDK invalidConfig).1 = none ∧
      (InitSQS offlineSDK invalidConfig).2 ≠ none ∧
      (InitSQS offlineSDK invalidConfig).2 = some "invalid environment: invalid") ∧
    ((InitSQS offlineSDK { testConfig with Endpoint := "" }).1 = none ∧
      (InitSQS offlineSDK { testConfig with Endpoint := "" }).2 ≠ none ∧
      (InitSQS offlineSDK { testConfig with Endpoint := "" }).2 =
        some "SQS endpoint is required for local/test environment") :=
  ⟨InitSQS_rejects_bad_config offlineSDK invalidConfig (Or.inl (by decide)),
   InitSQS_rejects_bad_config offlineSDK { testConfig with Endpoint := "" }
    (Or.inr (by decide))⟩

end sqs

namespace interactor

variable {ρ κ : Type}

/-- Removing the entities with identifier `id` from a list leaves none to find. -/
theorem find_filter_ne (l : List User) (id : UUID) :
    (l.filter (fun u => u.ID ≠ id)).find? (fun u => u.ID = id) = none := by
  simp [List.find?_eq_none, List.mem_filter]

/-- The reference cache is a key-value store: after a successful `Store` of `u`, a
lookup of the identifier of `u` answers `u`. -/
theorem listCache_find_after_store (removeOk : Bool) (u : User) (ttl : Nat) (c : List User) :
    ((listCache true removeOk).FindById u.ID
      ((listCache true removeOk).Store (some u) ttl c).2).1 = (some u, none) := by
  simp [listCache]

/-- The reference cache has no entry for `id` after a successful `Remove` of `id`. -/
theorem listCache_find_after_remove (storeOk : Bool) (id : UUID) (c : List User) :
    ((listCache storeOk true).FindById id ((listCache storeOk true).Remove id c).2).1
      = (none, some Err.NotFoundError) := by
  simp only [listCache, ↓reduceIte, find_filter_ne]

/-- The reference store reports `NotFoundError` for `id` after a committed, successful
`Remove` of `id`. -/
theorem tableRepository_find_after_remove (stamp : User → User) (upsert : Bool) (id : UUID)
    (t : Table) (h : ((tableRepository stamp upsert).Remove id t).1.2 = none) :
    ((tableRepository stamp upsert).FindById id
      (tableManager.Commit ((tableRepository stamp upsert).Remove id t).2)).1
      = (none, some Err.NotFoundError) := by
  by_cases hf : (t.rows.find? (fun u => u.ID = id)).isSome
  · simp only [tableRepository, tableRepositoryWith, tableManager, hf, ↓reduceIte,
      find_filter_ne]
  · simp only [tableRepository, tableRepositoryWith, hf, ↓reduceIte] at h
    exact absurd h (by simp)

/-- C3, as stated, fails: on a store whose `Save` returns a new entity with the update
timestamp it set and leaves the entity it was handed as it was, `Create` succeeds and
returns that new entity `E`, the cache write succeeds, and the following `Get` of the
identifier of `E` returns from the cache an entity other than `E`, the one that was
handed to `Save`. -/
theorem Create_then_Get_counterexample :
    ((listInteractor (stampUpdatedAt 5) true true true).Create
        { Email := "alice@example.com" } emptyWorld).1
      = (some { User := some ⟨0, "alice@example.com", 0, 5⟩ }, none) ∧
    ((listInteractor (stampUpdatedAt 5) true true true).Create
        { Email := "alice@example.com" } emptyWorld).2.calls
      = [Call.txBegin, Call.repoSave ⟨0, "alice@example.com", 0, 0⟩, Call.txCommit,
          Call.cacheStore (some ⟨0, "alice@example.com", 0, 0⟩) (3600 * Second)] ∧
    ((listInteractor (stampUpdatedAt 5) true true true).Get { ID := 0 }
        ((listInteractor (stampUpdatedAt 5) true true true).Create
          { Email := "alice@example.com" } emptyWorld).2).1
      = (some { User := some ⟨0, "alice@example.com", 0, 0⟩ }, none) ∧
    (⟨0, "alice@example.com", 0, 0⟩ : User) ≠ ⟨0, "alice@example.com", 0, 5⟩ := by
  decide

/-- C3, amended: when the cache is a key-value store keyed by the entity's identifier,
`Create` succeeds and its cache write succeeds, the cache holds the entity that `Create`
built and handed to `Save`, as `Save` left it, under that entity's identifier: the
following `Get` of that identifier returns it with a nil error, its only call is the
cache lookup (no `repo.FindById`) and it leaves the primary store as it was. That entity
is the one `Create` returned exactly when `Save` returned the entity it was handed. -/
theorem Create_then_Get_cached (i : UserInteractor ρ κ) (input : CreateUserInput)
    (w : World ρ κ)
    (hcache : ∀ (u : User) (ttl : Nat) (c : κ), (i.cache.Store (some u) ttl c).1 = none →
      (i.cache.FindById u.ID (i.cache.Store (some u) ttl c).2).1 = (some u, none))
    (hok : (i.Create input w).1.2 = none)
    (hstore : (i.cache.Store
      (some (i.repo.Save (i.model.NewUser ⟨i.model.Nil, input.Email⟩)
        (i.txManager.Begin w.repo)).2.1) (3600 * Second) w.cache).1 = none) :
    (i.Get ⟨(i.repo.Save (i.model.NewUser ⟨i.model.Nil, input.Email⟩)
        (i.txManager.Begin w.repo)).2.1.ID⟩ (i.Create input w).2).1
      = (some { User := some (i.repo.Save (i.model.NewUser ⟨i.model.Nil, input.Email⟩)
        (i.txManager.Begin w.repo)).2.1 }, none) ∧
    (i.Get ⟨(i.repo.Save (i.model.NewUser ⟨i.model.Nil, input.Email⟩)
        (i.txManager.Begin w.repo)).2.1.ID⟩ (i.Create input w).2).2.calls
      = (i.Create input w).2.calls ++
        [Call.cacheFindById (i.repo.Save (i.model.NewUser ⟨i.model.Nil, input.Email⟩)
          (i.txManager.Begin w.repo)).2.1.ID] ∧
    (i.Get ⟨(i.repo.Save (i.model.NewUser ⟨i.model.Nil, input.Email⟩)
        (i.txManager.Begin w.repo)).2.1.ID⟩ (i.Create input w).2).2.repo
      = (i.Create input w).2.repo ∧
    ((i.Create input w).1.1 =
        some { User := some (i.repo.Save (i.model.NewUser ⟨i.model.Nil, input.Email⟩)
          (i.txManager.Begin w.repo)).2.1 } ↔
      (i.repo.Save (i.model.NewUser ⟨i.model.Nil, input.Email⟩)
        (i.txManager.Begin w.repo)).1.1 =
        some (i.repo.Save (i.model.NewUser ⟨i.model.Nil, input.Email⟩)
          (i.txManager.Begin w.repo)).2.1) := by
  simp only [UserInteractor.Create] at hok ⊢
  generalize i.model.NewUser ⟨i.model.Nil, input.Email⟩ = user at hok hstore ⊢
  rcases hs : i.repo.Save user (i.txManager.Begin w.repo) with ⟨⟨cu, es⟩, u1, r⟩
  rw [hs] at hstore
  simp only at hstore
  have hfind := hcache u1 (3600 * Second) w.cache hstore
  rcases hv : i.model.Validate user with _ | ev
  · rcases hst : i.cache.Store (some u1) (3600 * Second) w.cache with ⟨ec, c2⟩
    rw [hst] at hstore hfind
    simp only at hstore hfind
    subst hstore
    rcases hf : i.cache.FindById u1.ID c2 with ⟨⟨fu, fe⟩, c3⟩
    rw [hf] at hfind
    simp only [Prod.mk.injEq] at hfind
    obtain ⟨rfl, rfl⟩ := hfind
    cases es with
    | none =>
      simp [Manager.DoInTx, UserInteractor.repoSave, UserInteractor.cacheStore, logIfErr,
        World.record, hs, hst, UserInteractor.Get, UserInteractor.cacheFindById, hf]
    | some e =>
      simp [Manager.DoInTx, UserInteractor.repoSave, World.record, hs, hv] at hok
  · simp [hv] at hok

/-- C3, amended, on the reference collaborators with a store whose `Save` sets the
update timestamp through the pointer it was handed and returns that pointer: the
following `Get` returns the stamped entity from the cache, and it is the entity that
`Create` returned. -/
theorem Create_then_Get_cached_witness :
    ((inPlaceInteractor (stampUpdatedAt 5) true true true).Get { ID := 0 }
        ((inPlaceInteractor (stampUpdatedAt 5) true true true).Create
          { Email := "alice@example.com" } emptyWorld).2).1
      = (some { User := some ⟨0, "alice@example.com", 0, 5⟩ }, none) ∧
    ((inPlaceInteractor (stampUpdatedAt 5) true true true).Get { ID := 0 }
        ((inPlaceInteractor (stampUpdatedAt 5) true true true).Create
          { Email := "alice@example.com" } emptyWorld).2).2.calls
      = [Call.txBegin, Call.repoSave ⟨0, "alice@example.com", 0, 0⟩, Call.txCommit,
          Call.cacheStore (some ⟨0, "alice@example.com", 0, 5⟩) (3600 * Second)] ++
        [Call.cacheFindById 0] ∧
    ((inPlaceInteractor (stampUpdatedAt 5) true true true).Create
        { Email := "alice@example.com" } emptyWorld).1.1
      = some { User := some ⟨0, "alice@example.com", 0, 5⟩ } :=
  ⟨(Create_then_Get_cached (inPlaceInteractor (stampUpdatedAt 5) true true true)
      { Email := "alice@example.com" } emptyWorld
      (fun u ttl c _ => listCache_find_after_store true u ttl c)
      (by decide) (by decide)).1,
   (Create_then_Get_cached (inPlaceInteractor (stampUpdatedAt 5) true true true)
      { Email := "alice@example.com" } emptyWorld
      (fun u ttl c _ => listCache_find_after_store true u ttl c)
      (by decide) (by decide)).2.1,
   (Create_then_Get_cached (inPlaceInteractor (stampUpdatedAt 5) true true true)
      { Email := "alice@example.com" } emptyWorld
      (fun u ttl c _ => listCache_find_after_store true u ttl c)
      (by decide) (by decide)).2.2.2.mpr (by decide)⟩

/-- C4: `Create` returns an error if and only if validation fails or the transactional
`Save` fails. On a validation failure it returns a nil output and that error, makes no
call at all (no transaction, no cache write) and changes neither store nor cache; on a
`Save` failure it returns a nil output and that error, the transaction is rolled back
and the cache is neither called nor changed. When both succeed it returns the entity
returned by `Save` with a nil error whatever `cache.Store` answers, the write is
committed and the cache is in the state `cache.Store` left it in: a failure of
`cache.Store` only adds a log line. -/
theorem Create_error_iff (i : UserInteractor ρ κ) (input : CreateUserInput) (w : World ρ κ) :
    ((i.Create input w).1.2 ≠ none ↔
      (i.model.Validate (i.model.NewUser ⟨i.model.Nil, input.Email⟩) ≠ none ∨
       (i.repo.Save (i.model.NewUser ⟨i.model.Nil, input.Email⟩)
          (i.txManager.Begin w.repo)).1.2 ≠ none)) ∧
    (∀ e, i.model.Validate (i.model.NewUser ⟨i.model.Nil, input.Email⟩) = some e →
      (i.Create input w).1 = (none, some e) ∧ (i.Create input w).2.calls = w.calls ∧
      (i.Create input w).2.cache = w.cache ∧ (i.Create input w).2.repo = w.repo) ∧
    (∀ e, i.model.Validate (i.model.NewUser ⟨i.model.Nil, input.Email⟩) = none →
      (i.repo.Save (i.model.NewUser ⟨i.model.Nil, input.Email⟩)
        (i.txManager.Begin w.repo)).1.2 = some e →
      (i.Create input w).1 = (none, some e) ∧
      (i.Create input w).2.calls = w.calls ++
        [Call.txBegin, Call.repoSave (i.model.NewUser ⟨i.model.Nil, input.Email⟩),
          Call.txRollback] ∧
      (i.Create input w).2.cache = w.cache ∧
      (i.Create input w).2.repo = i.txManager.Rollback
        (i.repo.Save (i.model.NewUser ⟨i.model.Nil, input.Email⟩)
          (i.txManager.Begin w.repo)).2.2) ∧
    (i.model.Validate (i.model.NewUser ⟨i.model.Nil, input.Email⟩) = none →
      (i.repo.Save (i.model.NewUser ⟨i.model.Nil, input.Email⟩)
        (i.txManager.Begin w.repo)).1.2 = none →
      (i.Create input w).1 =
        (some { User := (i.repo.Save (i.model.NewUser ⟨i.model.Nil, input.Email⟩)
          (i.txManager.Begin w.repo)).1.1 }, none) ∧
      (i.Create input w).2.calls = w.calls ++
        [Call.txBegin, Call.repoSave (i.model.NewUser ⟨i.model.Nil, input.Email⟩),
          Call.txCommit,
          Call.cacheStore (some (i.repo.Save (i.model.NewUser ⟨i.model.Nil, input.Email⟩)
            (i.txManager.Begin w.repo)).2.1) (3600 * Second)] ++
        (match (i.cache.Store (some (i.repo.Save
            (i.model.NewUser ⟨i.model.Nil, input.Email⟩) (i.txManager.Begin w.repo)).2.1)
            (3600 * Second) w.cache).1 with
          | some err => [Call.logPrintf "failed to set cache: %v\n" err]
          | none => []) ∧
      (i.Create input w).2.cache = (i.cache.Store (some (i.repo.Save
          (i.model.NewUser ⟨i.model.Nil, input.Email⟩) (i.txManager.Begin w.repo)).2.1)
          (3600 * Second) w.cache).2 ∧
      (i.Create input w).2.repo = i.txManager.Commit
        (i.repo.Save (i.model.NewUser ⟨i.model.Nil, input.Email⟩)
          (i.txManager.Begin w.repo)).2.2) := by
  simp only [UserInteractor.Create]
  generalize i.model.NewUser ⟨i.model.Nil, input.Email⟩ = user
  rcases hv : i.model.Validate user with _ | ev
  · rcases hs : i.repo.Save user (i.txManager.Begin w.repo) with ⟨⟨cu, es⟩, u1, r⟩
    rcases hst : i.cache.Store (some u1) (3600 * Second) w.cache with ⟨ec, c2⟩
    cases es <;> cases ec <;>
      simp [Manager.DoInTx, UserInteractor.repoSave, UserInteractor.cacheStore, logIfErr,
        World.record, hs, hst]
  · simp

/-- C4 on the reference collaborators, with a store that sets the update timestamp and a
cache whose `Store` fails: `Create` still returns the entity returned by `Save`, the row
is in the store and the cache is as it was. -/
theorem Create_error_iff_witness :
    ((listInteractor (stampUpdatedAt 5) true false true).Create
        { Email := "alice@example.com" } emptyWorld).1
      = (some { User := some (stampUpdatedAt 5 { alice with ID := 0 }) }, none) ∧
    ((listInteractor (stampUpdatedAt 5) true false true).Create
        { Email := "alice@example.com" } emptyWorld).2.cache = [] ∧
    ((listInteractor (stampUpdatedAt 5) true false true).Create
        { Email := "alice@example.com" } emptyWorld).2.repo
      = { rows := [stampUpdatedAt 5 { alice with ID := 0 }], undo := none } :=
  ⟨((Create_error_iff (listInteractor (stampUpdatedAt 5) true false true)
      { Email := "alice@example.com" } emptyWorld).2.2.2 (by decide) (by decide)).1,
   ((Create_error_iff (listInteractor (stampUpdatedAt 5) true false true)
      { Email := "alice@example.com" } emptyWorld).2.2.2 (by decide) (by decide)).2.2.1,
   ((Create_error_iff (listInteractor (stampUpdatedAt 5) true false true)
      { Email := "alice@example.com" } emptyWorld).2.2.2 (by decide) (by decide)).2.2.2⟩

/-- C5: when `cache.FindById` succeeds, `Get` returns the cached entity with a nil error;
the cache lookup is the only call it makes (no `repo.FindById`, no `cache.Store`), the
primary store is left as it was and the cache is in the state the lookup left it in. -/
theorem Get_cache_hit (i : UserInteractor ρ κ) (input : GetUserInput) (w : World ρ κ)
    (hhit : (i.cache.FindById input.ID w.cache).1.2 = none) :
    (i.Get input w).1 = (some { User := (i.cache.FindById input.ID w.cache).1.1 }, none) ∧
    (i.Get input w).2.calls = w.calls ++ [Call.cacheFindById input.ID] ∧
    (i.Get input w).2.repo = w.repo ∧
    (i.Get input w).2.cache = (i.cache.FindById input.ID w.cache).2 := by
  rcases h : i.cache.FindById input.ID w.cache with ⟨⟨u, e⟩, c⟩
  rw [h] at hhit
  simp only at hhit
  subst hhit
  simp [UserInteractor.Get, UserInteractor.cacheFindById, World.record, h]

/-- C5 on the reference collaborators: the cache holds `alice`. -/
theorem Get_cache_hit_witness :
    ((listInteractor id true true true).Get { ID := 1 } aliceWorld).1
        = (some { User := some alice }, none) ∧
    ((listInteractor id true true true).Get { ID := 1 } aliceWorld).2.calls
        = [] ++ [Call.cacheFindById 1] ∧
    ((listInteractor id true true true).Get { ID := 1 } aliceWorld).2.repo
        = aliceWorld.repo ∧
    ((listInteractor id true true true).Get { ID := 1 } aliceWorld).2.cache = [alice] :=
  Get_cache_hit (listInteractor id true true true) { ID := 1 } aliceWorld (by decide)

/-- C6: when `cache.FindById` returns an error, `Get` returns the outcome of
`repo.FindById`. If the store read fails, its error is returned with a nil output, the
calls made are the two lookups and the cache is as the lookup left it (no cache write).
If it succeeds with `U`, `Get` returns `U` with a nil error and calls `cache.Store`
once, with `U` and a TTL of 3600 seconds, on the cache as the lookup left it: the cache
ends in the state that call produced, whether or not the call fails (a failure only
adds a log line). In both cases the store is in the state `repo.FindById` left it in. -/
theorem Get_cache_miss (i : UserInteractor ρ κ) (input : GetUserInput) (w : World ρ κ)
    (hmiss : (i.cache.FindById input.ID w.cache).1.2 ≠ none) :
    (∀ e, (i.repo.FindById input.ID w.repo).1.2 = some e →
      (i.Get input w).1 = (none, some e) ∧
      (i.Get input w).2.calls =
        w.calls ++ [Call.cacheFindById input.ID, Call.repoFindById input.ID] ∧
      (i.Get input w).2.cache = (i.cache.FindById input.ID w.cache).2 ∧
      (i.Get input w).2.repo = (i.repo.FindById input.ID w.repo).2) ∧
    ((i.repo.FindById input.ID w.repo).1.2 = none →
      (i.Get input w).1 = (some { User := (i.repo.FindById input.ID w.repo).1.1 }, none) ∧
      (i.Get input w).2.calls =
        w.calls ++ [Call.cacheFindById input.ID, Call.repoFindById input.ID,
          Call.cacheStore (i.repo.FindById input.ID w.repo).1.1 (3600 * Second)] ++
        (match (i.cache.Store (i.repo.FindById input.ID w.repo).1.1 (3600 * Second)
            (i.cache.FindById input.ID w.cache).2).1 with
          | some err => [Call.logPrintf "failed to set cache: %v\n" err]
          | none => []) ∧
      (i.Get input w).2.cache =
        (i.cache.Store (i.repo.FindById input.ID w.repo).1.1 (3600 * Second)
          (i.cache.FindById input.ID w.cache).2).2 ∧
      (i.Get input w).2.repo = (i.repo.FindById input.ID w.repo).2) ∧
    3600 * Second = 3600 * 1000000000 := by
  rcases hc : i.cache.FindById input.ID w.cache with ⟨⟨u, e⟩, c⟩
  rw [hc] at hmiss
  simp only at hmiss
  obtain ⟨e0, rfl⟩ := Option.ne_none_iff_exists'.mp hmiss
  rcases hr : i.repo.FindById input.ID w.repo with ⟨⟨u1, e1⟩, r⟩
  refine ⟨?_, ?_, rfl⟩
  · intro e he
    simp only at he
    subst he
    simp [UserInteractor.Get, UserInteractor.cacheFindById, UserInteractor.repoFindById,
      World.record, hc, hr]
  · intro he
    simp only at he
    subst he
    rcases hs : i.cache.Store u1 (3600 * Second) c with ⟨es, c2⟩
    cases es <;>
      simp [UserInteractor.Get, UserInteractor.cacheFindById, UserInteractor.repoFindById,
        UserInteractor.cacheStore, logIfErr, World.record, hc, hr, hs]

/-- C6 on the reference collaborators: the cache is empty, the store holds `alice`;
after `Get` the cache holds `alice`. -/
theorem Get_cache_miss_witness :
    ((listInteractor id true true true).Get { ID := 1 } coldWorld).1
        = (some { User := some alice }, none) ∧
    ((listInteractor id true true true).Get { ID := 1 } coldWorld).2.calls
        = [Call.cacheFindById 1, Call.repoFindById 1,
            Call.cacheStore (some alice) 3600000000000] ∧
    ((listInteractor id true true true).Get { ID := 1 } coldWorld).2.cache = [alice] ∧
    ((listInteractor id true true true).Get { ID := 1 } coldWorld).2.repo
        = coldWorld.repo :=
  (Get_cache_miss (listInteractor id true true true) { ID := 1 } coldWorld
    (by decide)).2.1 (by decide)

/-- C7, as stated, fails: the store holds no entity with identifier `7`
(`repo.FindById` reports `NotFoundError`), `Save` inserts the row it is given, and
`Update` of `7` succeeds, persists the row and leaves a cache entry for `7`. -/
theorem Update_unknown_id_counterexample :
    ((listInteractor id true true true).repo.FindById 7 aliceWorld.repo).1
      = (none, some Err.NotFoundError) ∧
    ((listInteractor id true true true).Update
        { ID := 7, Email := "bob@example.com" } aliceWorld).1
      = (some { User := some ⟨7, "bob@example.com", 0, 0⟩ }, none) ∧
    ((listInteractor id true true true).Update
        { ID := 7, Email := "bob@example.com" } aliceWorld).2.repo.rows
      = [⟨7, "bob@example.com", 0, 0⟩, alice] ∧
    ((listInteractor id true true true).Update
        { ID := 7, Email := "bob@example.com" } aliceWorld).2.cache
      = [⟨7, "bob@example.com", 0, 0⟩, alice] := by
  decide

/-- C7, amended: `Update` never calls `repo.FindById`; what it does is fixed by the
validation of the entity built from the input and by the transactional `Save` alone.
When validation fails, `Update` returns that error with a nil output, calls nothing and
changes neither store nor cache. When validation passes and `Save` fails, in particular
with `NotFoundError`, `Update` fails with that error and a nil output, its calls are the
begin, the `Save` and the rollback, the store is the rolled back one and the cache is
neither called nor changed. When validation passes and `Save` succeeds, whether or not
the store held the identifier, `Update` succeeds, its calls are the begin, the `Save`,
the commit and one `cache.Store`, the store is the committed one and the cache is as
`cache.Store` left it. -/
theorem Update_never_reads_store (i : UserInteractor ρ κ) (input : UpdateUserInput)
    (w : World ρ κ) :
    (∀ id, Call.repoFindById id ∈ (i.Update input w).2.calls →
      Call.repoFindById id ∈ w.calls) ∧
    (∀ e, i.model.Validate (i.model.NewUser ⟨input.ID, input.Email⟩) = some e →
      (i.Update input w).1 = (none, some e) ∧ (i.Update input w).2.calls = w.calls ∧
      (i.Update input w).2.cache = w.cache ∧ (i.Update input w).2.repo = w.repo) ∧
    (∀ e, i.model.Validate (i.model.NewUser ⟨input.ID, input.Email⟩) = none →
      (i.repo.Save (i.model.NewUser ⟨input.ID, input.Email⟩)
        (i.txManager.Begin w.repo)).1.2 = some e →
      (i.Update input w).1 = (none, some e) ∧
      (i.Update input w).2.calls = w.calls ++
        [Call.txBegin, Call.repoSave (i.model.NewUser ⟨input.ID, input.Email⟩),
          Call.txRollback] ∧
      (i.Update input w).2.cache = w.cache ∧
      (i.Update input w).2.repo = i.txManager.Rollback
        (i.repo.Save (i.model.NewUser ⟨input.ID, input.Email⟩)
          (i.txManager.Begin w.repo)).2.2) ∧
    (i.model.Validate (i.model.NewUser ⟨input.ID, input.Email⟩) = none →
      (i.repo.Save (i.model.NewUser ⟨input.ID, input.Email⟩)
        (i.txManager.Begin w.repo)).1.2 = none →
      (i.Update input w).1 =
        (some { User := (i.repo.Save (i.model.NewUser ⟨input.ID, input.Email⟩)
          (i.txManager.Begin w.repo)).1.1 }, none) ∧
      (i.Update input w).2.calls = w.calls ++
        [Call.txBegin, Call.repoSave (i.model.NewUser ⟨input.ID, input.Email⟩),
          Call.txCommit,
          Call.cacheStore (some (i.repo.Save (i.model.NewUser ⟨input.ID, input.Email⟩)
            (i.txManager.Begin w.repo)).2.1) (3600 * Second)] ++
        (match (i.cache.Store (some (i.repo.Save
            (i.model.NewUser ⟨input.ID, input.Email⟩) (i.txManager.Begin w.repo)).2.1)
            (3600 * Second) w.cache).1 with
          | some err => [Call.logPrintf "failed to set cache: %v\n" err]
          | none => []) ∧
      (i.Update input w).2.cache = (i.cache.Store (some (i.repo.Save
          (i.model.NewUser ⟨input.ID, input.Email⟩) (i.txManager.Begin w.repo)).2.1)
          (3600 * Second) w.cache).2 ∧
      (i.Update input w).2.repo = i.txManager.Commit
        (i.repo.Save (i.model.NewUser ⟨input.ID, input.Email⟩)
          (i.txManager.Begin w.repo)).2.2) := by
  simp only [UserInteractor.Update]
  generalize i.model.NewUser ⟨input.ID, input.Email⟩ = user
  rcases hv : i.model.Validate user with _ | ev
  · rcases hs : i.repo.Save user (i.txManager.Begin w.repo) with ⟨⟨cu, es⟩, u1, r⟩
    rcases hst : i.cache.Store (some u1) (3600 * Second) w.cache with ⟨ec, c2⟩
    cases es <;> cases ec <;>
      simp [Manager.DoInTx, UserInteractor.repoSave, UserInteractor.cacheStore, logIfErr,
        World.record, hs, hst]
  · simp

/-- C7, amended, on the reference collaborators: with a `Save` that reports
`NotFoundError` for an unknown identifier, `Update` of `7` fails with it and store and
cache are as before; with an empty email, `Update` fails on validation, calls nothing
and changes nothing. -/
theorem Update_never_reads_store_witness :
    (((listInteractor id false true true).Update
          { ID := 7, Email := "bob@example.com" } aliceWorld).1
        = (none, some Err.NotFoundError) ∧
      ((listInteractor id false true true).Update
          { ID := 7, Email := "bob@example.com" } aliceWorld).2.calls
        = [] ++ [Call.txBegin, Call.repoSave ⟨7, "bob@example.com", 0, 0⟩,
            Call.txRollback] ∧
      ((listInteractor id false true true).Update
          { ID := 7, Email := "bob@example.com" } aliceWorld).2.cache = [alice] ∧
      ((listInteractor id false true true).Update
          { ID := 7, Email := "bob@example.com" } aliceWorld).2.repo
        = { rows := [alice], undo := none }) ∧
    (((listInteractor id true true true).Update { ID := 7, Email := "" } aliceWorld).1
        = (none, some (Err.ValidationError "email is required")) ∧
      ((listInteractor id true true true).Update { ID := 7, Email := "" } aliceWorld).2.calls
        = [] ∧
      ((listInteractor id true true true).Update { ID := 7, Email := "" } aliceWorld).2.cache
        = [alice] ∧
      ((listInteractor id true true true).Update { ID := 7, Email := "" } aliceWorld).2.repo
        = { rows := [alice], undo := none }) :=
  ⟨(Update_never_reads_store (listInteractor id false true true)
      { ID := 7, Email := "bob@example.com" } aliceWorld).2.2.1 Err.NotFoundError
      (by decide) (by decide),
   (Update_never_reads_store (listInteractor id true true true)
      { ID := 7, Email := "" } aliceWorld).2.1 (Err.ValidationError "email is required")
      (by decide)⟩

/-- C8, as stated, fails: on a store whose `Save` returns a new entity with the update
timestamp it set and leaves the entity it was handed as it was, `Update` of `alice`
succeeds and returns that new entity, while the value it hands to `cache.Store`, and
that the cache then holds, is the entity that was handed to `Save`, which differs from
the returned one. -/
theorem Update_cache_value_counterexample :
    ((listInteractor (stampUpdatedAt 5) true true true).Update
        { ID := 1, Email := "new@example.com" } aliceWorld).1
      = (some { User := some ⟨1, "new@example.com", 0, 5⟩ }, none) ∧
    ((listInteractor (stampUpdatedAt 5) true true true).Update
        { ID := 1, Email := "new@example.com" } aliceWorld).2.calls
      = [Call.txBegin,
          Call.repoSave { ID := 1, Email := "new@example.com", CreatedAt := 0, UpdatedAt := 0 },
          Call.txCommit,
          Call.cacheStore
            (some { ID := 1, Email := "new@example.com", CreatedAt := 0, UpdatedAt := 0 })
            (3600 * Second)] ∧
    ((listInteractor (stampUpdatedAt 5) true true true).Update
        { ID := 1, Email := "new@example.com" } aliceWorld).2.cache
      = [{ ID := 1, Email := "new@example.com", CreatedAt := 0, UpdatedAt := 0 }] ∧
    ({ ID := 1, Email := "new@example.com", CreatedAt := 0, UpdatedAt := 0 } : User)
      ≠ { ID := 1, Email := "new@example.com", CreatedAt := 0, UpdatedAt := 5 } := by
  decide

/-- C8, amended: when `Update` succeeds it returns the entity returned by the
transactional `Save` and calls `cache.Store` once, with a TTL of 3600 seconds and with
the entity it built from the input identifier and email and handed to `Save`, as `Save`
left it (so the cached value is the returned one whenever `Save` returns the entity it
was handed); the write is committed and the cache is as `cache.Store` left it. When
`Save` fails, `Update` returns that error with a nil output, the transaction is rolled
back and the cache is neither called nor changed. -/
theorem Update_cache_value (i : UserInteractor ρ κ) (input : UpdateUserInput) (w : World ρ κ)
    (hvalid : i.model.Validate (i.model.NewUser ⟨input.ID, input.Email⟩) = none) :
    ((i.repo.Save (i.model.NewUser ⟨input.ID, input.Email⟩)
        (i.txManager.Begin w.repo)).1.2 = none →
      (i.Update input w).1 =
        (some { User := (i.repo.Save (i.model.NewUser ⟨input.ID, input.Email⟩)
          (i.txManager.Begin w.repo)).1.1 }, none) ∧
      (i.Update input w).2.calls = w.calls ++
        [Call.txBegin, Call.repoSave (i.model.NewUser ⟨input.ID, input.Email⟩),
          Call.txCommit,
          Call.cacheStore (some (i.repo.Save (i.model.NewUser ⟨input.ID, input.Email⟩)
            (i.txManager.Begin w.repo)).2.1) (3600 * Second)] ++
        (match (i.cache.Store (some (i.repo.Save
            (i.model.NewUser ⟨input.ID, input.Email⟩) (i.txManager.Begin w.repo)).2.1)
            (3600 * Second) w.cache).1 with
          | some err => [Call.logPrintf "failed to set cache: %v\n" err]
          | none => []) ∧
      (i.Update input w).2.cache = (i.cache.Store (some (i.repo.Save
          (i.model.NewUser ⟨input.ID, input.Email⟩) (i.txManager.Begin w.repo)).2.1)
          (3600 * Second) w.cache).2 ∧
      (i.Update input w).2.repo = i.txManager.Commit
        (i.repo.Save (i.model.NewUser ⟨input.ID, input.Email⟩)
          (i.txManager.Begin w.repo)).2.2 ∧
      ((i.repo.Save (i.model.NewUser ⟨input.ID, input.Email⟩)
          (i.txManager.Begin w.repo)).1.1 =
          some (i.repo.Save (i.model.NewUser ⟨input.ID, input.Email⟩)
            (i.txManager.Begin w.repo)).2.1 →
        (i.Update input w).1 =
          (some { User := some (i.repo.Save (i.model.NewUser ⟨input.ID, input.Email⟩)
            (i.txManager.Begin w.repo)).2.1 }, none))) ∧
    (∀ e, (i.repo.Save (i.model.NewUser ⟨input.ID, input.Email⟩)
        (i.txManager.Begin w.repo)).1.2 = some e →
      (i.Update input w).1 = (none, some e) ∧
      (i.Update input w).2.calls = w.calls ++
        [Call.txBegin, Call.repoSave (i.model.NewUser ⟨input.ID, input.Email⟩),
          Call.txRollback] ∧
      (i.Update input w).2.cache = w.cache ∧
      (i.Update input w).2.repo = i.txManager.Rollback
        (i.repo.Save (i.model.NewUser ⟨input.ID, input.Email⟩)
          (i.txManager.Begin w.repo)).2.2) := by
  simp only [UserInteractor.Update]
  generalize i.model.NewUser ⟨input.ID, input.Email⟩ = user at hvalid ⊢
  rcases hs : i.repo.Save user (i.txManager.Begin w.repo) with ⟨⟨cu, es⟩, u1, r⟩
  rcases hst : i.cache.Store (some u1) (3600 * Second) w.cache with ⟨ec, c2⟩
  cases es <;> cases ec <;>
    simp [Manager.DoInTx, UserInteractor.repoSave, UserInteractor.cacheStore, logIfErr,
      World.record, hs, hst, hvalid]

/-- C8, amended, on the reference collaborators with a store whose `Save` sets the
update timestamp through the pointer it was handed and returns that pointer: the value
handed to the cache, and that the cache then holds, is the stamped entity that `Update`
returns. -/
theorem Update_cache_value_witness :
    ((inPlaceInteractor (stampUpdatedAt 5) true true true).Update
        { ID := 1, Email := "new@example.com" } aliceWorld).1
      = (some { User := some ⟨1, "new@example.com", 0, 5⟩ }, none) ∧
    ((inPlaceInteractor (stampUpdatedAt 5) true true true).Update
        { ID := 1, Email := "new@example.com" } aliceWorld).2.calls
      = [] ++ [Call.txBegin, Call.repoSave ⟨1, "new@example.com", 0, 0⟩,
          Call.txCommit,
          Call.cacheStore (some ⟨1, "new@example.com", 0, 5⟩) (3600 * Second)] ++ [] ∧
    ((inPlaceInteractor (stampUpdatedAt 5) true true true).Update
        { ID := 1, Email := "new@example.com" } aliceWorld).2.cache
      = [⟨1, "new@example.com", 0, 5⟩] :=
  ⟨((Update_cache_value (inPlaceInteractor (stampUpdatedAt 5) true true true)
      { ID := 1, Email := "new@example.com" } aliceWorld (by decide)).1 (by decide)).1,
   ((Update_cache_value (inPlaceInteractor (stampUpdatedAt 5) true true true)
      { ID := 1, Email := "new@example.com" } aliceWorld (by decide)).1 (by decide)).2.1,
   ((Update_cache_value (inPlaceInteractor (stampUpdatedAt 5) true true true)
      { ID := 1, Email := "new@example.com" } aliceWorld (by decide)).1 (by decide)).2.2.1⟩

/-- C9: `Delete` returns an error if and only if the transactional `repo.Remove` fails.
Then the error is the one of `repo.Remove`, the output is nil, the transaction is rolled
back and `cache.Remove` is not called: the cache is as it was. When `repo.Remove`
succeeds, `Delete` returns the identifier returned by `repo.Remove` with a nil error,
the removal is committed, and `cache.Remove` is called once, with the input identifier,
on the cache as it was: the cache ends in the state that call produced, whatever the
call answers: its failure only adds a log line. -/
theorem Delete_error_iff (i : UserInteractor ρ κ) (input : DeleteUserInput) (w : World ρ κ) :
    ((i.Delete input w).1.2 ≠ none ↔
      (i.repo.Remove input.ID (i.txManager.Begin w.repo)).1.2 ≠ none) ∧
    (∀ e, (i.repo.Remove input.ID (i.txManager.Begin w.repo)).1.2 = some e →
      (i.Delete input w).1 = (none, some e) ∧
      (i.Delete input w).2.calls = w.calls ++
        [Call.txBegin, Call.repoRemove input.ID, Call.txRollback] ∧
      (i.Delete input w).2.cache = w.cache ∧
      (i.Delete input w).2.repo = i.txManager.Rollback
        (i.repo.Remove input.ID (i.txManager.Begin w.repo)).2) ∧
    ((i.repo.Remove input.ID (i.txManager.Begin w.repo)).1.2 = none →
      (i.Delete input w).1 =
        (some { ID := (i.repo.Remove input.ID (i.txManager.Begin w.repo)).1.1 }, none) ∧
      (i.Delete input w).2.calls = w.calls ++
        [Call.txBegin, Call.repoRemove input.ID, Call.txCommit,
          Call.cacheRemove input.ID] ++
        (match (i.cache.Remove input.ID w.cache).1 with
          | some err => [Call.logPrintf "failed to delete cache: %v\n" err]
          | none => []) ∧
      (i.Delete input w).2.cache = (i.cache.Remove input.ID w.cache).2 ∧
      (i.Delete input w).2.repo = i.txManager.Commit
        (i.repo.Remove input.ID (i.txManager.Begin w.repo)).2) := by
  simp only [UserInteractor.Delete]
  rcases hr : i.repo.Remove input.ID (i.txManager.Begin w.repo) with ⟨⟨d, er⟩, r⟩
  rcases hc : i.cache.Remove input.ID w.cache with ⟨ec, c2⟩
  cases er <;> cases ec <;>
    simp [Manager.DoInTx, UserInteractor.repoRemove, UserInteractor.cacheRemove, logIfErr,
      World.record, hr, hc]

/-- C9 on the reference collaborators. With a working cache, `Delete` of `alice` leaves
neither a row nor a cache entry; with a cache whose `Remove` fails, `Delete` still
returns the identifier, the row is gone, the failure is logged and the cache entry
stays. -/
theorem Delete_error_iff_witness :
    (((listInteractor id true true true).Delete { ID := 1 } aliceWorld).1
        = (some { ID := some 1 }, none) ∧
      ((listInteractor id true true true).Delete { ID := 1 } aliceWorld).2.calls
        = [Call.txBegin, Call.repoRemove 1, Call.txCommit, Call.cacheRemove 1] ∧
      ((listInteractor id true true true).Delete { ID := 1 } aliceWorld).2.cache = [] ∧
      ((listInteractor id true true true).Delete { ID := 1 } aliceWorld).2.repo
        = { rows := [], undo := none }) ∧
    (((listInteractor id true true false).Delete { ID := 1 } aliceWorld).1
        = (some { ID := some 1 }, none) ∧
      ((listInteractor id true true false).Delete { ID := 1 } aliceWorld).2.calls
        = [Call.txBegin, Call.repoRemove 1, Call.txCommit, Call.cacheRemove 1,
            Call.logPrintf "failed to delete cache: %v\n"
              (Err.CacheError "remove failed")] ∧
      ((listInteractor id true true false).Delete { ID := 1 } aliceWorld).2.cache
        = [alice] ∧
      ((listInteractor id true true false).Delete { ID := 1 } aliceWorld).2.repo
        = { rows := [], undo := none }) :=
  ⟨(Delete_error_iff (listInteractor id true true true) { ID := 1 } aliceWorld).2.2
      (by decide),
   (Delete_error_iff (listInteractor id true true false) { ID := 1 } aliceWorld).2.2
      (by decide)⟩

/-- C10, as stated, fails: store and cache hold `alice`, `cache.Remove` fails, `Delete`
of `alice` returns successfully (the failure is only logged), and the following `Get`
of the same identifier returns `alice` from the cache with a nil error instead of
failing with `NotFoundError`. -/
theorem Delete_then_Get_counterexample :
    ((listInteractor id true true false).Delete { ID := 1 } aliceWorld).1
      = (some { ID := some 1 }, none) ∧
    ((listInteractor id true true false).Delete { ID := 1 } aliceWorld).2.repo.rows = [] ∧
    ((listInteractor id true true false).Get { ID := 1 }
        ((listInteractor id true true false).Delete { ID := 1 } aliceWorld).2).1
      = (some { User := some alice }, none) := by
  decide

/-- C10, amended: when the primary store reports `NotFoundError` for an identifier whose
removal was committed, the cache has no entry for an identifier it removed, `Delete`
returns successfully and its `cache.Remove` call succeeded, the following `Get` of the
same identifier fails with `NotFoundError` and a nil output. -/
theorem Delete_then_Get_not_found (i : UserInteractor ρ κ) (input : DeleteUserInput)
    (w : World ρ κ)
    (hrepo : ∀ r : ρ, (i.repo.Remove input.ID r).1.2 = none →
      (i.repo.FindById input.ID (i.txManager.Commit (i.repo.Remove input.ID r).2)).1
        = (none, some Err.NotFoundError))
    (hcache : ∀ c : κ, (i.cache.Remove input.ID c).1 = none →
      (i.cache.FindById input.ID (i.cache.Remove input.ID c).2).1.2 ≠ none)
    (hok : (i.Delete input w).1.2 = none)
    (hremoved : (i.cache.Remove input.ID w.cache).1 = none) :
    (i.Get ⟨input.ID⟩ (i.Delete input w).2).1 = (none, some Err.NotFoundError) := by
  have hmiss := hcache w.cache hremoved
  have hgone := hrepo (i.txManager.Begin w.repo)
  simp only [UserInteractor.Delete] at hok ⊢
  rcases hr : i.repo.Remove input.ID (i.txManager.Begin w.repo) with ⟨⟨d, er⟩, r⟩
  rcases hc : i.cache.Remove input.ID w.cache with ⟨ec, c2⟩
  rw [hc] at hremoved hmiss
  simp only at hremoved hmiss
  subst hremoved
  rw [hr] at hgone
  cases er with
  | some e =>
    simp [Manager.DoInTx, UserInteractor.repoRemove, World.record, hr] at hok
  | none =>
    have hgone := hgone rfl
    simp only at hgone
    rcases hf : i.cache.FindById input.ID c2 with ⟨⟨fu, fe⟩, c3⟩
    rw [hf] at hmiss
    simp only at hmiss
    obtain ⟨e0, rfl⟩ := Option.ne_none_iff_exists'.mp hmiss
    rcases hg : i.repo.FindById input.ID (i.txManager.Commit r) with ⟨⟨gu, ge⟩, r2⟩
    rw [hg] at hgone
    simp only [Prod.mk.injEq] at hgone
    obtain ⟨rfl, rfl⟩ := hgone
    simp [Manager.DoInTx, UserInteractor.repoRemove, UserInteractor.cacheRemove, logIfErr,
      World.record, hr, hc, UserInteractor.Get, UserInteractor.cacheFindById,
      UserInteractor.repoFindById, hf, hg]

/-- C10, amended, on the reference collaborators: store and cache hold `alice`, the
cache works. -/
theorem Delete_then_Get_not_found_witness :
    ((listInteractor id true true true).Get { ID := 1 }
        ((listInteractor id true true true).Delete { ID := 1 } aliceWorld).2).1
      = (none, some Err.NotFoundError) :=
  Delete_then_Get_not_found (listInteractor id true true true) { ID := 1 } aliceWorld
    (fun r h => tableRepository_find_after_remove id true 1 r h)
    (fun c _ => by
      have h := listCache_find_after_remove true 1 c
      show ((listCache true true).FindById 1 ((listCache true true).Remove 1 c).2).1.2 ≠ none
      rw [h]
      exact Option.some_ne_none _)
    (by decide) (by decide)

variable {μ : Type}

/-- C12: when `ReceiveMessage` succeeds with at least one message, `DeleteMessage` is
called exactly once, with the receipt handle of the first message received, as the last
queue call before `ProcessMessage` returns, also when the body of the message fails to
deserialize; and what `ProcessMessage` returns is fixed by deserializing that body
alone, whatever `DeleteMessage` answers: its failure only adds a log line. -/
theorem ProcessMessage_deletes_received (json : JSON) (msgQueue : MessageQueueRepository μ)
    (input : ProcessMessageInput) (w : QueueWorld μ) (msg : Message) (rest : List Message)
    (hmarshal : (json.Marshal input.ID).2 = none)
    (hsend : (msgQueue.SendMessage ⟨(json.Marshal input.ID).1, ""⟩ w.queue).1 = none)
    (hreceive : (msgQueue.ReceiveMessage ⟨1⟩
      (msgQueue.SendMessage ⟨(json.Marshal input.ID).1, ""⟩ w.queue).2).1
        = (msg :: rest, none)) :
    (UserInteractor.ProcessMessage json msgQueue input w).1 =
      (match json.Unmarshal msg.Body with
        | (_, some err) => (none, some err)
        | (userID, none) => (some { ID := some userID }, none)) ∧
    (UserInteractor.ProcessMessage json msgQueue input w).2.calls = w.calls ++
      [QueueCall.sendMessage ⟨(json.Marshal input.ID).1, ""⟩,
        QueueCall.receiveMessage ⟨1⟩] ++
      (match json.Unmarshal msg.Body with
        | (_, some _) => []
        | (userID, none) => [QueueCall.logPrintfID "Dequeued user_id: %s\n" userID]) ++
      [QueueCall.deleteMessage msg.ReceiptHandle] ++
      (match (msgQueue.DeleteMessage msg.ReceiptHandle
          (msgQueue.ReceiveMessage ⟨1⟩
            (msgQueue.SendMessage ⟨(json.Marshal input.ID).1, ""⟩ w.queue).2).2).1 with
        | some err => [QueueCall.logPrintf "Failed to delete message: %v" err]
        | none => []) ∧
    (UserInteractor.ProcessMessage json msgQueue input w).2.queue =
      (msgQueue.DeleteMessage msg.ReceiptHandle
        (msgQueue.ReceiveMessage ⟨1⟩
          (msgQueue.SendMessage ⟨(json.Marshal input.ID).1, ""⟩ w.queue).2).2).2 := by
  rcases hm : json.Marshal input.ID with ⟨bytes, em⟩
  rw [hm] at hmarshal hsend hreceive
  simp only at hmarshal hsend hreceive
  subst hmarshal
  rcases hs : msgQueue.SendMessage ⟨bytes, ""⟩ w.queue with ⟨es, q1⟩
  rw [hs] at hsend hreceive
  simp only at hsend hreceive
  subst hsend
  rcases hr : msgQueue.ReceiveMessage ⟨1⟩ q1 with ⟨⟨msgs, er⟩, q2⟩
  rw [hr] at hreceive
  simp only [Prod.mk.injEq] at hreceive
  obtain ⟨rfl, rfl⟩ := hreceive
  rcases hu : json.Unmarshal msg.Body with ⟨userID, eu⟩
  rcases hd : msgQueue.DeleteMessage msg.ReceiptHandle q2 with ⟨ed, q3⟩
  cases eu <;> cases ed <;>
    simp [UserInteractor.ProcessMessage, deferredDelete, QueueWorld.record, hm, hs, hr, hu, hd]

/-- C12 on the reference queue, which holds a message whose body is not an identifier
and whose `DeleteMessage` fails: the error returned is the one of deserializing, and
`DeleteMessage` was called with the receipt handle of that message. -/
theorem ProcessMessage_deletes_received_witness :
    (UserInteractor.ProcessMessage strokeJSON (listQueue true false) ⟨3⟩ strayQueue).1
      = (none, some (Err.EncodingError "invalid character")) ∧
    (UserInteractor.ProcessMessage strokeJSON (listQueue true false) ⟨3⟩ strayQueue).2.calls
      = [QueueCall.sendMessage ⟨"|||", ""⟩, QueueCall.receiveMessage ⟨1⟩,
          QueueCall.deleteMessage "rh:stray",
          QueueCall.logPrintf "Failed to delete message: %v"
            (Err.QueueAckError "delete failed")] :=
  ⟨(ProcessMessage_deletes_received strokeJSON (listQueue true false) ⟨3⟩ strayQueue
      ⟨"stray", "rh:stray"⟩ [] (by decide) (by decide) (by decide)).1,
   (ProcessMessage_deletes_received strokeJSON (listQueue true false) ⟨3⟩ strayQueue
      ⟨"stray", "rh:stray"⟩ [] (by decide) (by decide) (by decide)).2.1⟩

end interactor

namespace sample_subscriber

open interactor (Err Second ProcessMessageInput)

variable {σ : Type}

/-- C15: if the context is already cancelled when `Run` is called, `Run` returns a nil
error at its first pass through the loop, whatever the dependency and the arguments,
and leaves the record of calls as it was: no `ProcessMessage`, no sleep. -/
theorem Run_cancelled_before_start (dependency : Dependency σ) (args : List String)
    (w : RunWorld σ) (n : Nat) (hcancelled : dependency.Done w.env = true) :
    (Run dependency args (n + 1) w).1 = some none ∧
    (Run dependency args (n + 1) w).2.calls = w.calls ∧
    (Run dependency args (n + 1) w).2.env = w.env := by
  simp [Run, hcancelled]

/-- C15 on a scripted environment whose context is cancelled from the start. -/
theorem Run_cancelled_before_start_witness :
    (Run scripted ["sample"] (0 + 1) cancelledWorld).1 = some none ∧
    (Run scripted ["sample"] (0 + 1) cancelledWorld).2.calls = [] ∧
    (Run scripted ["sample"] (0 + 1) cancelledWorld).2.env = cancelledWorld.env :=
  Run_cancelled_before_start scripted ["sample"] cancelledWorld 0 (by decide)

end sample_subscriber

namespace interactor

variable {σ : Type}

/-- The deferred rollback records a `Rollback` call on its handle. -/
theorem rollback_mem_deferredRollback (i : matchInteractor σ) (tx : Tx) (w : MatchWorld σ) :
    MatchCall.rollback tx ∈ (deferredRollback i tx w).calls := by
  rcases hr : i.repo.Rollback tx w.env with ⟨err, e⟩
  cases err <;> simp [deferredRollback, hr]

/-- The sibling paths: `Delete` calls `Rollback` on the handle that `BeginTx` returned on
every path after a successful `BeginTx`. -/
theorem matchInteractor_Delete_terminates_tx (i : matchInteractor σ) (input : DeleteMatchInput)
    (w : MatchWorld σ) (tx : Tx) (hbegin : (i.repo.BeginTx w.env).1 = (tx, none)) :
    MatchCall.rollback tx ∈ (i.Delete input w).2.calls := by
  rcases hb : i.repo.BeginTx w.env with ⟨⟨tx0, eb⟩, e1⟩
  rw [hb] at hbegin
  simp only [Prod.mk.injEq] at hbegin
  obtain ⟨rfl, rfl⟩ := hbegin
  rcases hd : i.repo.DeleteTx tx0 input.ID e1 with ⟨⟨d, ed⟩, e2⟩
  rcases hc : i.repo.Commit tx0 e2 with ⟨ec, e3⟩
  cases ed <;> cases ec <;>
    simp only [matchInteractor.Delete, hb, hd, hc] <;>
    exact rollback_mem_deferredRollback i tx0 _

/-- The sibling paths: `Update` calls `Rollback` on the handle that `BeginTx` returned on
every path after a successful `BeginTx`. -/
theorem matchInteractor_Update_terminates_tx (i : matchInteractor σ) (input : UpdateMatchInput)
    (w : MatchWorld σ) (tx : Tx) (hget : (i.repo.Get input.ID w.env).1.2 = none)
    (hbegin : (i.repo.BeginTx (i.repo.Get input.ID w.env).2).1 = (tx, none)) :
    MatchCall.rollback tx ∈ (i.Update input w).2.calls := by
  rcases hg : i.repo.Get input.ID w.env with ⟨⟨m0, eg⟩, e1⟩
  rw [hg] at hget hbegin
  simp only at hget hbegin
  subst hget
  rcases hb : i.repo.BeginTx e1 with ⟨⟨tx0, eb⟩, e2⟩
  rw [hb] at hbegin
  simp only [Prod.mk.injEq] at hbegin
  obtain ⟨rfl, rfl⟩ := hbegin
  rcases hu : i.repo.UpdateTx tx0 { m0 with Status := input.Status, UpdatedAt := i.Now e1 } e2
    with ⟨⟨u, eu⟩, e3⟩
  rcases hc : i.repo.Commit tx0 e3 with ⟨ec, e4⟩
  cases eu <;> cases ec <;>
    simp only [matchInteractor.Update, hg, hb, hu, hc] <;>
    exact rollback_mem_deferredRollback i tx0 _

/-- The other paths of `Create`: once `CreateMatch` has succeeded, `Create` calls
`Rollback` on the handle that `BeginTx` returned on every path. -/
theorem matchInteractor_Create_terminates_tx_after_service (i : matchInteractor σ)
    (input : CreateMatchInput) (w : MatchWorld σ) (tx : Tx)
    (hbegin : (i.repo.BeginTx w.env).1 = (tx, none))
    (hservice : (i.service.CreateMatch input.MeID input.PartnerID
      (i.repo.BeginTx w.env).2).1.2 = none) :
    MatchCall.rollback tx ∈ (i.Create input w).2.calls := by
  rcases hb : i.repo.BeginTx w.env with ⟨⟨tx0, eb⟩, e1⟩
  rw [hb] at hbegin hservice
  simp only [Prod.mk.injEq] at hbegin hservice
  obtain ⟨rfl, rfl⟩ := hbegin
  rcases hs : i.service.CreateMatch input.MeID input.PartnerID e1 with ⟨⟨m, es⟩, e2⟩
  rw [hs] at hservice
  simp only at hservice
  subst hservice
  rcases hcr : i.repo.CreateTx tx0 m e2 with ⟨⟨c, ecr⟩, e3⟩
  rcases hc : i.repo.Commit tx0 e3 with ⟨ec, e4⟩
  cases ecr <;> cases ec <;>
    simp only [matchInteractor.Create, hb, hs, hcr, hc] <;>
    exact rollback_mem_deferredRollback i tx0 _

/-- C17 (the code departs from the claim): when `BeginTx` succeeds and the domain
service's `CreateMatch` fails, `matchInteractor.Create` returns that error having made
the two calls `BeginTx` and `CreateMatch` only: it calls neither `Commit` nor `Rollback`
on the handle it opened, which is left open. -/
theorem matchInteractor_Create_leaves_tx_open (i : matchInteractor σ)
    (input : CreateMatchInput) (w : MatchWorld σ) (tx : Tx) (e : Err)
    (hbegin : (i.repo.BeginTx w.env).1 = (tx, none))
    (hservice : (i.service.CreateMatch input.MeID input.PartnerID
      (i.repo.BeginTx w.env).2).1.2 = some e) :
    (i.Create input w).1 = (none, some e) ∧
    (i.Create input w).2.calls = w.calls ++
      [MatchCall.beginTx, MatchCall.createMatch input.MeID input.PartnerID] ∧
    (MatchCall.commit tx ∈ (i.Create input w).2.calls → MatchCall.commit tx ∈ w.calls) ∧
    (MatchCall.rollback tx ∈ (i.Create input w).2.calls →
      MatchCall.rollback tx ∈ w.calls) := by
  rcases hb : i.repo.BeginTx w.env with ⟨⟨tx0, eb⟩, e1⟩
  rw [hb] at hbegin hservice
  simp only [Prod.mk.injEq] at hbegin hservice
  obtain ⟨rfl, rfl⟩ := hbegin
  rcases hs : i.service.CreateMatch input.MeID input.PartnerID e1 with ⟨⟨m, es⟩, e2⟩
  rw [hs] at hservice
  simp only at hservice
  subst hservice
  simp [matchInteractor.Create, hb, hs]

/-- C17 on the reference store: a user matched with themselves is refused by the domain
service; `Create` returns the error, no `Commit` or `Rollback` was called, and the
handle `0` that `BeginTx` opened is still open in the store. -/
theorem matchInteractor_Create_leaves_tx_open_witness :
    ((storeInteractor.Create ⟨1, 1⟩ emptyStore).1
        = (none, some (Err.ValidationError "cannot match a user with themselves")) ∧
      (storeInteractor.Create ⟨1, 1⟩ emptyStore).2.calls
        = [] ++ [MatchCall.beginTx, MatchCall.createMatch 1 1] ∧
      (MatchCall.commit 0 ∈ (storeInteractor.Create ⟨1, 1⟩ emptyStore).2.calls →
        MatchCall.commit 0 ∈ emptyStore.calls) ∧
      (MatchCall.rollback 0 ∈ (storeInteractor.Create ⟨1, 1⟩ emptyStore).2.calls →
        MatchCall.rollback 0 ∈ emptyStore.calls)) ∧
    (storeInteractor.Create ⟨1, 1⟩ emptyStore).2.env.openTx = [0] ∧
    (storeInteractor.Delete ⟨1⟩ emptyStore).2.env.openTx = [] :=
  ⟨matchInteractor_Create_leaves_tx_open storeInteractor ⟨1, 1⟩ emptyStore 0
      (Err.ValidationError "cannot match a user with themselves") (by decide) (by decide),
    by decide, by decide⟩

end interactor
